import Mathlib

/-!
# inv_trader execution core: wire codec and execution-client registry

A shallow embedding of `inv_trader/serialization.pyx` (the MessagePack wire
codec for Orders, Commands, Events and Instruments) together with a model of
the `ExecutionClient` order registry, and proofs of the round-trip,
error-handling, encoding-discipline and registry-invariant properties.

The codec functions are translated line by line from
`src/inv_trader/serialization.pyx`.  Collaborator modules that the codec
imports but whose sources are not in the repository snapshot
(`inv_trader.common.serialization` conversion helpers, the enum modules, the
model classes and `Precondition`) are modelled from the specification; each
such definition carries a doc comment saying so.
-/

/-- A Python value as it occurs in a MessagePack map produced or consumed by
the codec layer: an `int`, a `str`, or a `bytes` object.  A `bytes` object is
either the UTF-8 encoding of a string (`butf8`), the empty buffer (`bempty`),
or a MessagePack-packed map (`bpacked`), which is how nested order bytes
travel inside command messages. -/
inductive PyVal : Type where
  | pint (i : Int)
  | pstr (s : String)
  | butf8 (s : String)
  | bempty
  | bpacked (kvs : List (String × PyVal))

/-- The error outcomes of the Python codec paths.  `precondition` is the
`ValueError` raised by `Precondition.not_empty`; `valueError` the explicit
`raise ValueError(msg)` statements; `keyError` a missing dictionary key;
`typeError` a value of the wrong runtime type; `unpackError` a failure inside
`msgpack.unpackb`; `unicodeError` a failed `bytes.decode('utf-8')`. -/
inductive PyErr : Type where
  | precondition (param : String)
  | valueError (msg : String)
  | keyError (key : String)
  | typeError
  | unpackError
  | unicodeError
  deriving DecidableEq

/-- First-match lookup in a MessagePack map (Python `unpacked[key]`; the maps
built by the codec never repeat a key). -/
def mlookup (k : String) : List (String × PyVal) → Option PyVal
  | [] => none
  | (k1, v) :: rest => if k1 = k then some v else mlookup k rest

/-- `Precondition.not_empty(argument, param_name)` from
`inv_trader.core.precondition` (not in the sources).  Modelled from the spec:
empty input is a precondition violation raised as a `ValueError` before any
parsing begins. -/
def Precondition.not_empty (argument : PyVal) (param : String) : Except PyErr Unit :=
  match argument with
  | .bempty => .error (.precondition param)
  | .butf8 s => if s = "" then .error (.precondition param) else .ok ()
  | _ => .ok ()

/-- `msgpack.packb` on a dict with string keys (external library, modelled as
the constructor of the packed-map bytes form). -/
def packb (kvs : List (String × PyVal)) : PyVal :=
  .bpacked kvs

/-- `msgpack.unpackb(bytes, raw=False)` (external library): unpacking a packed
map returns its entries with `str` values as `str`; anything that is not a
packed map fails. -/
def unpackb : PyVal → Except PyErr (List (String × PyVal))
  | .bpacked kvs => .ok kvs
  | .bempty => .error .unpackError
  | .butf8 _ => .error .unpackError
  | _ => .error .typeError

/-- With `raw=True` (the default used by the command deserializer) string
values come back as their UTF-8 bytes. -/
def rawify : PyVal → PyVal
  | .pstr s => .butf8 s
  | v => v

/-- `msgpack.unpackb(bytes)` with the default `raw=True`: keys are raw bytes
(identified here with their underlying string) and string values come back as
UTF-8 bytes. -/
def unpackbRaw : PyVal → Except PyErr (List (String × PyVal))
  | .bpacked kvs => .ok (kvs.map fun kv => (kv.1, rawify kv.2))
  | .bempty => .error .unpackError
  | .butf8 _ => .error .unpackError
  | _ => .error .typeError

/-- Python `bytes.decode('utf-8')` on the bytes objects of this model. -/
def bytesDecodeUtf8 : PyVal → Except PyErr String
  | .butf8 s => .ok s
  | .bempty => .ok ""
  | .bpacked _ => .error .unicodeError
  | _ => .error .typeError

/-- `unpacked[k]` where a missing key raises `KeyError`. -/
def getVal (unpacked : List (String × PyVal)) (k : String) : Except PyErr PyVal :=
  match mlookup k unpacked with
  | some v => .ok v
  | none => .error (.keyError k)

/-- `unpacked[k]` coerced to `str` (a non-string raises at the typed
assignment). -/
def getStr (unpacked : List (String × PyVal)) (k : String) : Except PyErr String := do
  match ← getVal unpacked k with
  | .pstr s => .ok s
  | _ => .error .typeError

/-- `unpacked[k]` coerced to `int`. -/
def getInt (unpacked : List (String × PyVal)) (k : String) : Except PyErr Int := do
  match ← getVal unpacked k with
  | .pint i => .ok i
  | _ => .error .typeError

/-- Python enum lookup `Enum[name]`, raising `KeyError` when the name is not
in the table. -/
def enumLookup {α : Type} (o : Option α) (name : String) : Except PyErr α :=
  match o with
  | some v => .ok v
  | none => .error (.keyError name)

/- ### Identifier and value types

Modelled from the spec (`inv_trader.model.identifiers` / `objects` are not in
the sources): each identifier is an immutable value-equal wrapper over a
string; Quantity wraps a native integer; Price, Money and Decimal are
decimal-exact values identified by their exact decimal string
representation. -/

/-- Modelled from the spec: value-equal string wrapper. -/
structure OrderId where
  value : String
  deriving DecidableEq

/-- Modelled from the spec: value-equal string wrapper. -/
structure TraderId where
  value : String
  deriving DecidableEq

/-- Modelled from the spec: value-equal string wrapper. -/
structure StrategyId where
  value : String
  deriving DecidableEq

/-- Modelled from the spec: value-equal string wrapper. -/
structure PositionId where
  value : String
  deriving DecidableEq

/-- Modelled from the spec: value-equal string wrapper. -/
structure AccountId where
  value : String
  deriving DecidableEq

/-- Modelled from the spec: value-equal string wrapper. -/
structure InstrumentId where
  value : String
  deriving DecidableEq

/-- Modelled from the spec: value-equal string wrapper. -/
structure ExecutionId where
  value : String
  deriving DecidableEq

/-- Modelled from the spec: value-equal string wrapper. -/
structure ExecutionTicket where
  value : String
  deriving DecidableEq

/-- Modelled from the spec: value-equal string wrapper. -/
structure AccountNumber where
  value : String
  deriving DecidableEq

/-- Modelled from the spec: a GUID wraps its UUID string; `GUID(UUID(s))`
round-trips the string exactly. -/
structure GUID where
  value : String
  deriving DecidableEq

/-- Modelled from the spec: value-equal string wrapper. -/
structure Label where
  value : String
  deriving DecidableEq

/-- Modelled from the spec: value-equal string wrapper; `str(v)` is its
value. -/
structure ValidString where
  value : String
  deriving DecidableEq

/-- Modelled from the spec: a symbol (code plus venue) identified by its
string form, e.g. `AUDUSD.FXCM`.  (Named `TradeSymbol` here because `Symbol`
is already taken by the ambient library.) -/
structure TradeSymbol where
  value : String
  deriving DecidableEq

/-- Modelled from the spec: decimal-exact price identified by its exact
decimal string (`str(price)` reproduces it; `Price(s)` parses it back). -/
structure Price where
  value : String
  deriving DecidableEq

/-- Modelled from the spec: decimal-exact money amount identified by its exact
decimal string. -/
structure Money where
  value : String
  deriving DecidableEq

/-- Modelled from the spec: a `decimal.Decimal`, identified by its exact
decimal string. -/
structure PyDecimal where
  value : String
  deriving DecidableEq

/-- Modelled from the spec: a quantity wraps a native integer. -/
structure Quantity where
  value : Int
  deriving DecidableEq

/-- Modelled from the spec: a timestamp, identified by its fixed-format string
(`convert_datetime_to_string` prints it, `convert_string_to_datetime` parses
the identical instant back). -/
structure PyDatetime where
  s : String
  deriving DecidableEq

/- ### Enumerations

Modelled from the spec: the `inv_trader.enums` modules are not in the
sources; the spec requires each enumeration to be encoded by a bidirectional,
exhaustive and invertible name table, and `Enum[s]` looks a variant up by its
canonical name. -/

/-- Modelled from the spec: order side enumeration. -/
inductive OrderSide : Type where
  | BUY
  | SELL
  deriving DecidableEq

/-- `order_side_string` from `inv_trader.enums.order_side`. -/
def order_side_string : OrderSide → String
  | .BUY => "BUY"
  | .SELL => "SELL"

/-- Python `OrderSide[name]`. -/
def order_side_from_string (s : String) : Option OrderSide :=
  if s = "BUY" then some .BUY
  else if s = "SELL" then some .SELL
  else none

/-- Modelled from the spec: order type enumeration. -/
inductive OrderType : Type where
  | MARKET
  | LIMIT
  | STOP_MARKET
  | STOP_LIMIT
  | MIT
  deriving DecidableEq

/-- `order_type_string` from `inv_trader.enums.order_type`. -/
def order_type_string : OrderType → String
  | .MARKET => "MARKET"
  | .LIMIT => "LIMIT"
  | .STOP_MARKET => "STOP_MARKET"
  | .STOP_LIMIT => "STOP_LIMIT"
  | .MIT => "MIT"

/-- Python `OrderType[name]`. -/
def order_type_from_string (s : String) : Option OrderType :=
  if s = "MARKET" then some .MARKET
  else if s = "LIMIT" then some .LIMIT
  else if s = "STOP_MARKET" then some .STOP_MARKET
  else if s = "STOP_LIMIT" then some .STOP_LIMIT
  else if s = "MIT" then some .MIT
  else none

/-- Modelled from the spec: time-in-force enumeration. -/
inductive TimeInForce : Type where
  | DAY
  | GTC
  | IOC
  | FOC
  | GTD
  deriving DecidableEq

/-- `time_in_force_string` from `inv_trader.enums.time_in_force`. -/
def time_in_force_string : TimeInForce → String
  | .DAY => "DAY"
  | .GTC => "GTC"
  | .IOC => "IOC"
  | .FOC => "FOC"
  | .GTD => "GTD"

/-- Python `TimeInForce[name]`. -/
def time_in_force_from_string (s : String) : Option TimeInForce :=
  if s = "DAY" then some .DAY
  else if s = "GTC" then some .GTC
  else if s = "IOC" then some .IOC
  else if s = "FOC" then some .FOC
  else if s = "GTD" then some .GTD
  else none

/-- Modelled from the spec: brokerage enumeration. -/
inductive Broker : Type where
  | SIMULATED
  | FXCM
  | DUKASCOPY
  deriving DecidableEq

/-- `broker_string` from `inv_trader.enums.brokerage`. -/
def broker_string : Broker → String
  | .SIMULATED => "SIMULATED"
  | .FXCM => "FXCM"
  | .DUKASCOPY => "DUKASCOPY"

/-- Python `Broker[name]`. -/
def broker_from_string (s : String) : Option Broker :=
  if s = "SIMULATED" then some .SIMULATED
  else if s = "FXCM" then some .FXCM
  else if s = "DUKASCOPY" then some .DUKASCOPY
  else none

/-- Modelled from the spec: currency enumeration. -/
inductive Currency : Type where
  | USD
  | AUD
  | EUR
  | GBP
  | JPY
  deriving DecidableEq

/-- `currency_string` from `inv_trader.enums.currency`. -/
def currency_string : Currency → String
  | .USD => "USD"
  | .AUD => "AUD"
  | .EUR => "EUR"
  | .GBP => "GBP"
  | .JPY => "JPY"

/-- Python `Currency[name]`. -/
def currency_from_string (s : String) : Option Currency :=
  if s = "USD" then some .USD
  else if s = "AUD" then some .AUD
  else if s = "EUR" then some .EUR
  else if s = "GBP" then some .GBP
  else if s = "JPY" then some .JPY
  else none

/-- Modelled from the spec: security type enumeration. -/
inductive SecurityType : Type where
  | FOREX
  | CFD
  | BOND
  deriving DecidableEq

/-- `security_type_string` from `inv_trader.enums.security_type`. -/
def security_type_string : SecurityType → String
  | .FOREX => "FOREX"
  | .CFD => "CFD"
  | .BOND => "BOND"

/-- Python `SecurityType[name]`. -/
def security_type_from_string (s : String) : Option SecurityType :=
  if s = "FOREX" then some .FOREX
  else if s = "CFD" then some .CFD
  else if s = "BOND" then some .BOND
  else none

/- ### Conversion helpers

Modelled from the spec: `inv_trader.common.serialization` is not in the
sources.  Per the spec, absent optional values are encoded by the explicit
`NONE` sentinel, prices and timestamps as exact strings parsed back to the
identical value. -/

/-- `parse_symbol` from `inv_trader.common.serialization`: parses a symbol
from its `code.venue` string form. -/
def parse_symbol (s : String) : TradeSymbol :=
  ⟨s⟩

/-- `convert_price_to_string`: an absent price becomes the `NONE` sentinel. -/
def convert_price_to_string : Option Price → String
  | none => "NONE"
  | some p => p.value

/-- `convert_string_to_price`: the `NONE` sentinel becomes an absent price. -/
def convert_string_to_price (s : String) : Option Price :=
  if s = "NONE" then none else some ⟨s⟩

/-- `convert_label_to_string`: an absent label becomes the `NONE` sentinel. -/
def convert_label_to_string : Option Label → String
  | none => "NONE"
  | some l => l.value

/-- `convert_string_to_label`: the `NONE` sentinel becomes an absent label. -/
def convert_string_to_label (s : String) : Option Label :=
  if s = "NONE" then none else some ⟨s⟩

/-- `convert_datetime_to_string`: an absent datetime becomes the `NONE`
sentinel, a present one its fixed-format string. -/
def convert_datetime_to_string : Option PyDatetime → String
  | none => "NONE"
  | some d => d.s

/-- `convert_string_to_datetime`: the `NONE` sentinel becomes `None`, any
other string parses back to the identical instant. -/
def convert_string_to_datetime (s : String) : Option PyDatetime :=
  if s = "NONE" then none else some ⟨s⟩

/- ### Order -/

/-- Modelled from the spec (`inv_trader.model.order` is not in the sources):
an order's static definition.  `price`, `label` and `expire_time` are
optional; `init_id` is the GUID of the initializing event, minted at
construction. -/
structure Order where
  id : OrderId
  symbol : TradeSymbol
  side : OrderSide
  type : OrderType
  quantity : Quantity
  price : Option Price
  label : Option Label
  time_in_force : TimeInForce
  expire_time : Option PyDatetime
  timestamp : Option PyDatetime
  init_id : GUID
  deriving DecidableEq

/-- Modelled from the spec: the `Order` constructor invoked by the
deserializer receives no `init_id` argument and mints the GUID of a fresh
initializing event; the model stands the fresh mint in with a distinguished
constant (only its independence from the wire bytes matters). -/
def freshInitId : GUID :=
  ⟨"00000000-0000-0000-0000-000000000000"⟩

/-- The order as rebuilt by the decoder: every wire field restored, the
initialization GUID freshly minted. -/
def Order.regenInit (o : Order) : Order :=
  { o with init_id := freshInitId }

/-- Modelled from the spec: exactly one entry order plus optional stop-loss
and take-profit legs. -/
structure AtomicOrder where
  entry : Order
  stop_loss : Option Order
  take_profit : Option Order
  deriving DecidableEq

/-- The field map of a present order, exactly as `MsgPackOrderSerializer.serialize`
(serialization.pyx lines 141-152) packs it. -/
def orderFields (order : Order) : List (String × PyVal) := [
  ("Id", .pstr order.id.value),
  ("Symbol", .pstr order.symbol.value),
  ("OrderSide", .pstr (order_side_string order.side)),
  ("OrderType", .pstr (order_type_string order.type)),
  ("Quantity", .pint order.quantity.value),
  ("Price", .pstr (convert_price_to_string order.price)),
  ("Label", .pstr (convert_label_to_string order.label)),
  ("TimeInForce", .pstr (time_in_force_string order.time_in_force)),
  ("ExpireTime", .pstr (convert_datetime_to_string order.expire_time)),
  ("Timestamp", .pstr (convert_datetime_to_string order.timestamp)),
  ("InitId", .pstr order.init_id.value)]

/-- `MsgPackOrderSerializer.serialize` (serialization.pyx lines 131-152):
`None` packs as the empty map (the null-order sentinel), otherwise the fixed
field map. -/
def MsgPackOrderSerializer.serialize : Option Order → PyVal
  | none => packb []
  | some order => packb (orderFields order)

/-- `MsgPackOrderSerializer.deserialize` (serialization.pyx lines 154-178):
precondition on empty bytes, unpack, empty map decodes to the null order,
otherwise rebuild the order field by field (`InitId` is never read). -/
def MsgPackOrderSerializer.deserialize (order_bytes : PyVal) :
    Except PyErr (Option Order) := do
  let _ ← Precondition.not_empty order_bytes "order_bytes"
  let unpacked ← unpackb order_bytes
  if unpacked.length = 0 then
    return none
  else
    let id_s ← getStr unpacked "Id"
    let symbol_s ← getStr unpacked "Symbol"
    let side_s ← getStr unpacked "OrderSide"
    let order_side ← enumLookup (order_side_from_string side_s) side_s
    let type_s ← getStr unpacked "OrderType"
    let order_type ← enumLookup (order_type_from_string type_s) type_s
    let quantity_i ← getInt unpacked "Quantity"
    let timestamp_s ← getStr unpacked "Timestamp"
    let price_s ← getStr unpacked "Price"
    let label_s ← getStr unpacked "Label"
    let tif_s ← getStr unpacked "TimeInForce"
    let time_in_force ← enumLookup (time_in_force_from_string tif_s) tif_s
    let expire_s ← getStr unpacked "ExpireTime"
    return some {
      id := ⟨id_s⟩,
      symbol := parse_symbol symbol_s,
      side := order_side,
      type := order_type,
      quantity := ⟨quantity_i⟩,
      price := convert_string_to_price price_s,
      label := convert_string_to_label label_s,
      time_in_force := time_in_force,
      expire_time := convert_string_to_datetime expire_s,
      timestamp := convert_string_to_datetime timestamp_s,
      init_id := freshInitId }

/- ### Validity of wire-encodable values

The spec's round-trip law ranges over *valid* values: a value string that
collides with the `NONE` absent-value sentinel cannot be told apart from an
absent value on the wire. -/

/-- A present datetime is valid when its string form is not the `NONE`
sentinel. -/
def dtValidb : Option PyDatetime → Bool
  | none => true
  | some d => !(d.s == "NONE")

/-- A present price is valid when its string form is not the `NONE`
sentinel. -/
def priceValidb : Option Price → Bool
  | none => true
  | some p => !(p.value == "NONE")

/-- A present label is valid when its string form is not the `NONE`
sentinel. -/
def labelValidb : Option Label → Bool
  | none => true
  | some l => !(l.value == "NONE")

/-- A valid order: its optional fields do not collide with the `NONE`
sentinel. -/
def Order.validb (o : Order) : Bool :=
  priceValidb o.price && labelValidb o.label && dtValidb o.expire_time &&
    dtValidb o.timestamp

@[simp]
theorem order_side_from_to (s : OrderSide) :
    order_side_from_string (order_side_string s) = some s := by
  cases s <;> rfl

@[simp]
theorem order_type_from_to (t : OrderType) :
    order_type_from_string (order_type_string t) = some t := by
  cases t <;> rfl

@[simp]
theorem time_in_force_from_to (t : TimeInForce) :
    time_in_force_from_string (time_in_force_string t) = some t := by
  cases t <;> rfl

@[simp]
theorem broker_from_to (b : Broker) :
    broker_from_string (broker_string b) = some b := by
  cases b <;> rfl

@[simp]
theorem currency_from_to (c : Currency) :
    currency_from_string (currency_string c) = some c := by
  cases c <;> rfl

@[simp]
theorem security_type_from_to (s : SecurityType) :
    security_type_from_string (security_type_string s) = some s := by
  cases s <;> rfl

@[simp]
theorem convert_datetime_roundtrip (d : Option PyDatetime) (h : dtValidb d = true) :
    convert_string_to_datetime (convert_datetime_to_string d) = d := by
  cases d with
  | none => rfl
  | some d =>
    simp only [dtValidb, Bool.not_eq_eq_eq_not, Bool.not_true, beq_eq_false_iff_ne,
      ne_eq] at h
    simp [convert_datetime_to_string, convert_string_to_datetime, h]

@[simp]
theorem convert_price_roundtrip (p : Option Price) (h : priceValidb p = true) :
    convert_string_to_price (convert_price_to_string p) = p := by
  cases p with
  | none => rfl
  | some p =>
    simp only [priceValidb, Bool.not_eq_eq_eq_not, Bool.not_true, beq_eq_false_iff_ne,
      ne_eq] at h
    simp [convert_price_to_string, convert_string_to_price, h]

@[simp]
theorem convert_label_roundtrip (l : Option Label) (h : labelValidb l = true) :
    convert_string_to_label (convert_label_to_string l) = l := by
  cases l with
  | none => rfl
  | some l =>
    simp only [labelValidb, Bool.not_eq_eq_eq_not, Bool.not_true, beq_eq_false_iff_ne,
      ne_eq] at h
    simp [convert_label_to_string, convert_string_to_label, h]

/-- Decoding an encoded order restores every wire field; the `init_id` is the
freshly minted one, since the decoder never reads `InitId`. -/
theorem order_serialize_roundtrip (o : Order) (h : Order.validb o = true) :
    MsgPackOrderSerializer.deserialize (MsgPackOrderSerializer.serialize (some o)) =
      .ok (some o.regenInit) := by
  have h4 := h
  simp only [Order.validb, Bool.and_eq_true] at h4
  obtain ⟨⟨⟨hp, hl⟩, he⟩, ht⟩ := h4
  simp [MsgPackOrderSerializer.serialize, MsgPackOrderSerializer.deserialize,
    orderFields, Precondition.not_empty, packb, unpackb, getStr, getInt, getVal,
    mlookup, enumLookup, parse_symbol, Order.regenInit, bind, Except.bind, pure,
    Except.pure, hp, hl, he, ht]

/- ### Events -/

/-- Modelled from the spec (`inv_trader.model.events` is not in the sources):
the closed Event variant set, with exactly the fields the codec reads and
writes.  Every event carries its own GUID and timestamp. -/
inductive Event : Type where
  | accountEvent (order_id : AccountId) (broker : Broker)
      (account_number : AccountNumber) (currency : Currency)
      (cash_balance cash_start_day cash_activity_day : Money)
      (margin_used_liquidation margin_used_maintenance : Money)
      (margin_ratio_dec : PyDecimal) (margin_call_status : ValidString)
      (id : GUID) (timestamp : Option PyDatetime)
  | orderInitialized (order_id : OrderId) (symbol : TradeSymbol) (label : Label)
      (order_side : OrderSide) (order_type : OrderType) (quantity : Quantity)
      (price : Price) (time_in_force : TimeInForce)
      (expire_time : Option PyDatetime) (id : GUID) (timestamp : Option PyDatetime)
  | orderSubmitted (order_id : OrderId) (submitted_time : Option PyDatetime)
      (id : GUID) (timestamp : Option PyDatetime)
  | orderAccepted (order_id : OrderId) (accepted_time : Option PyDatetime)
      (id : GUID) (timestamp : Option PyDatetime)
  | orderRejected (order_id : OrderId) (rejected_time : Option PyDatetime)
      (rejected_reason : ValidString) (id : GUID) (timestamp : Option PyDatetime)
  | orderWorking (order_id : OrderId) (order_id_broker : OrderId)
      (symbol : TradeSymbol) (label : Label) (order_side : OrderSide)
      (order_type : OrderType) (quantity : Quantity) (price : Price)
      (time_in_force : TimeInForce) (working_time : Option PyDatetime)
      (id : GUID) (timestamp : Option PyDatetime) (expire_time : Option PyDatetime)
  | orderCancelReject (order_id : OrderId) (cancel_reject_time : Option PyDatetime)
      (cancel_reject_response : ValidString) (cancel_reject_reason : ValidString)
      (id : GUID) (timestamp : Option PyDatetime)
  | orderCancelled (order_id : OrderId) (cancelled_time : Option PyDatetime)
      (id : GUID) (timestamp : Option PyDatetime)
  | orderModified (order_id : OrderId) (order_id_broker : OrderId)
      (modified_price : Price) (modified_time : Option PyDatetime)
      (id : GUID) (timestamp : Option PyDatetime)
  | orderExpired (order_id : OrderId) (expired_time : Option PyDatetime)
      (id : GUID) (timestamp : Option PyDatetime)
  | orderPartiallyFilled (order_id : OrderId) (execution_id : ExecutionId)
      (execution_ticket : ExecutionTicket) (symbol : TradeSymbol)
      (order_side : OrderSide) (filled_quantity leaves_quantity : Quantity)
      (average_price : Price) (execution_time : Option PyDatetime)
      (id : GUID) (timestamp : Option PyDatetime)
  | orderFilled (order_id : OrderId) (execution_id : ExecutionId)
      (execution_ticket : ExecutionTicket) (symbol : TradeSymbol)
      (order_side : OrderSide) (filled_quantity : Quantity)
      (average_price : Price) (execution_time : Option PyDatetime)
      (id : GUID) (timestamp : Option PyDatetime)
  deriving DecidableEq

/-- Python `event.__class__.__name__`, the variant tag written under the
`Event` key. -/
def Event.className : Event → String
  | .accountEvent .. => "AccountEvent"
  | .orderInitialized .. => "OrderInitialized"
  | .orderSubmitted .. => "OrderSubmitted"
  | .orderAccepted .. => "OrderAccepted"
  | .orderRejected .. => "OrderRejected"
  | .orderWorking .. => "OrderWorking"
  | .orderCancelReject .. => "OrderCancelReject"
  | .orderCancelled .. => "OrderCancelled"
  | .orderModified .. => "OrderModified"
  | .orderExpired .. => "OrderExpired"
  | .orderPartiallyFilled .. => "OrderPartiallyFilled"
  | .orderFilled .. => "OrderFilled"

/-- The event's own GUID. -/
def Event.guidOf : Event → GUID
  | .accountEvent _ _ _ _ _ _ _ _ _ _ _ id _ => id
  | .orderInitialized _ _ _ _ _ _ _ _ _ id _ => id
  | .orderSubmitted _ _ id _ => id
  | .orderAccepted _ _ id _ => id
  | .orderRejected _ _ _ id _ => id
  | .orderWorking _ _ _ _ _ _ _ _ _ _ id _ _ => id
  | .orderCancelReject _ _ _ _ id _ => id
  | .orderCancelled _ _ id _ => id
  | .orderModified _ _ _ _ id _ => id
  | .orderExpired _ _ id _ => id
  | .orderPartiallyFilled _ _ _ _ _ _ _ _ _ id _ => id
  | .orderFilled _ _ _ _ _ _ _ _ id _ => id

/-- The event's own timestamp. -/
def Event.timestampOf : Event → Option PyDatetime
  | .accountEvent _ _ _ _ _ _ _ _ _ _ _ _ ts => ts
  | .orderInitialized _ _ _ _ _ _ _ _ _ _ ts => ts
  | .orderSubmitted _ _ _ ts => ts
  | .orderAccepted _ _ _ ts => ts
  | .orderRejected _ _ _ _ ts => ts
  | .orderWorking _ _ _ _ _ _ _ _ _ _ _ ts _ => ts
  | .orderCancelReject _ _ _ _ _ ts => ts
  | .orderCancelled _ _ _ ts => ts
  | .orderModified _ _ _ _ _ ts => ts
  | .orderExpired _ _ _ ts => ts
  | .orderPartiallyFilled _ _ _ _ _ _ _ _ _ _ ts => ts
  | .orderFilled _ _ _ _ _ _ _ _ _ ts => ts

/-- `MsgPackEventSerializer.serialize` (serialization.pyx lines 321-428): the
common header (`Type`, `Event`, `EventId`, `EventTimestamp`) followed by the
variant's fields. -/
def MsgPackEventSerializer.serialize (event : Event) : PyVal :=
  let header : List (String × PyVal) := [
    ("Type", .pstr "Event"),
    ("Event", .pstr event.className),
    ("EventId", .pstr event.guidOf.value),
    ("EventTimestamp", .pstr (convert_datetime_to_string event.timestampOf))]
  match event with
  | .accountEvent order_id broker account_number currency cash_balance
      cash_start_day cash_activity_day margin_used_liquidation
      margin_used_maintenance margin_ratio_dec margin_call_status _ _ =>
    packb (header ++ [
      ("AccountId", .pstr order_id.value),
      ("Broker", .pstr (broker_string broker)),
      ("AccountNumber", .pstr account_number.value),
      ("Currency", .pstr (currency_string currency)),
      ("CashBalance", .pstr cash_balance.value),
      ("CashStartDay", .pstr cash_start_day.value),
      ("CashActivityDay", .pstr cash_activity_day.value),
      ("MarginUsedLiquidation", .pstr margin_used_liquidation.value),
      ("MarginUsedMaintenance", .pstr margin_used_maintenance.value),
      ("MarginRatio", .pstr margin_ratio_dec.value),
      ("MarginCallStatus", .pstr margin_call_status.value)])
  | .orderInitialized order_id symbol label order_side order_type quantity
      price time_in_force expire_time _ _ =>
    packb (header ++ [
      ("OrderId", .pstr order_id.value),
      ("Symbol", .pstr symbol.value),
      ("Label", .pstr label.value),
      ("OrderSide", .pstr (order_side_string order_side)),
      ("OrderType", .pstr (order_type_string order_type)),
      ("Quantity", .pint quantity.value),
      ("Price", .pstr price.value),
      ("TimeInForce", .pstr (time_in_force_string time_in_force)),
      ("ExpireTime", .pstr (convert_datetime_to_string expire_time))])
  | .orderSubmitted order_id submitted_time _ _ =>
    packb (header ++ [
      ("OrderId", .pstr order_id.value),
      ("SubmittedTime", .pstr (convert_datetime_to_string submitted_time))])
  | .orderAccepted order_id accepted_time _ _ =>
    packb (header ++ [
      ("OrderId", .pstr order_id.value),
      ("AcceptedTime", .pstr (convert_datetime_to_string accepted_time))])
  | .orderRejected order_id rejected_time rejected_reason _ _ =>
    packb (header ++ [
      ("OrderId", .pstr order_id.value),
      ("RejectedTime", .pstr (convert_datetime_to_string rejected_time)),
      ("RejectedReason", .pstr rejected_reason.value)])
  | .orderWorking order_id order_id_broker symbol label order_side order_type
      quantity price time_in_force working_time _ _ expire_time =>
    packb (header ++ [
      ("OrderId", .pstr order_id.value),
      ("OrderIdBroker", .pstr order_id_broker.value),
      ("Symbol", .pstr symbol.value),
      ("Label", .pstr label.value),
      ("OrderSide", .pstr (order_side_string order_side)),
      ("OrderType", .pstr (order_type_string order_type)),
      ("Quantity", .pint quantity.value),
      ("Price", .pstr price.value),
      ("TimeInForce", .pstr (time_in_force_string time_in_force)),
      ("ExpireTime", .pstr (convert_datetime_to_string expire_time)),
      ("WorkingTime", .pstr (convert_datetime_to_string working_time))])
  | .orderCancelReject order_id cancel_reject_time cancel_reject_response
      cancel_reject_reason _ _ =>
    packb (header ++ [
      ("OrderId", .pstr order_id.value),
      ("RejectedTime", .pstr (convert_datetime_to_string cancel_reject_time)),
      ("RejectedResponse", .pstr cancel_reject_response.value),
      ("RejectedReason", .pstr cancel_reject_reason.value)])
  | .orderCancelled order_id cancelled_time _ _ =>
    packb (header ++ [
      ("OrderId", .pstr order_id.value),
      ("CancelledTime", .pstr (convert_datetime_to_string cancelled_time))])
  | .orderModified order_id order_id_broker modified_price modified_time _ _ =>
    packb (header ++ [
      ("OrderId", .pstr order_id.value),
      ("OrderIdBroker", .pstr order_id_broker.value),
      ("ModifiedTime", .pstr (convert_datetime_to_string modified_time)),
      ("ModifiedPrice", .pstr modified_price.value)])
  | .orderExpired order_id expired_time _ _ =>
    packb (header ++ [
      ("OrderId", .pstr order_id.value),
      ("ExpiredTime", .pstr (convert_datetime_to_string expired_time))])
  | .orderPartiallyFilled order_id execution_id execution_ticket symbol
      order_side filled_quantity leaves_quantity average_price execution_time
      _ _ =>
    packb (header ++ [
      ("OrderId", .pstr order_id.value),
      ("ExecutionId", .pstr execution_id.value),
      ("ExecutionTicket", .pstr execution_ticket.value),
      ("Symbol", .pstr symbol.value),
      ("OrderSide", .pstr (order_side_string order_side)),
      ("FilledQuantity", .pint filled_quantity.value),
      ("LeavesQuantity", .pint leaves_quantity.value),
      ("AveragePrice", .pstr average_price.value),
      ("ExecutionTime", .pstr (convert_datetime_to_string execution_time))])
  | .orderFilled order_id execution_id execution_ticket symbol order_side
      filled_quantity average_price execution_time _ _ =>
    packb (header ++ [
      ("OrderId", .pstr order_id.value),
      ("ExecutionId", .pstr execution_id.value),
      ("ExecutionTicket", .pstr execution_ticket.value),
      ("Symbol", .pstr symbol.value),
      ("OrderSide", .pstr (order_side_string order_side)),
      ("FilledQuantity", .pint filled_quantity.value),
      ("AveragePrice", .pstr average_price.value),
      ("ExecutionTime", .pstr (convert_datetime_to_string execution_time))])

/-- `MsgPackEventSerializer.deserialize` (serialization.pyx lines 430-555):
precondition, unpack with `raw=False`, `Type` check, then dispatch on the
`Event` tag.  The dispatch handles `AccountEvent` (with the hardcoded
`ValidString('NONE')` margin-call status) and the ten order events from
`OrderSubmitted` to `OrderFilled`; there is no `OrderInitialized` branch, so
that tag falls through to the final `ValueError`. -/
def MsgPackEventSerializer.deserialize (event_bytes : PyVal) :
    Except PyErr Event := do
  let _ ← Precondition.not_empty event_bytes "event_bytes"
  let unpacked ← unpackb event_bytes
  let message_type ← getStr unpacked "Type"
  if message_type ≠ "Event" then
    .error (.valueError "Cannot deserialize event (the message is not a type of event).")
  else
    let event_type ← getStr unpacked "Event"
    let event_id_s ← getStr unpacked "EventId"
    let event_id : GUID := ⟨event_id_s⟩
    let event_timestamp := convert_string_to_datetime (← getStr unpacked "EventTimestamp")
    if event_type = "AccountEvent" then do
      let account_id_s ← getStr unpacked "AccountId"
      let broker_s ← getStr unpacked "Broker"
      let broker ← enumLookup (broker_from_string broker_s) broker_s
      let account_number_s ← getStr unpacked "AccountNumber"
      let currency_s ← getStr unpacked "Currency"
      let currency ← enumLookup (currency_from_string currency_s) currency_s
      let cash_balance_s ← getStr unpacked "CashBalance"
      let cash_start_day_s ← getStr unpacked "CashStartDay"
      let cash_activity_day_s ← getStr unpacked "CashActivityDay"
      let margin_used_liq_s ← getStr unpacked "MarginUsedLiquidation"
      let margin_used_maint_s ← getStr unpacked "MarginUsedMaintenance"
      let margin_ratio_s ← getStr unpacked "MarginRatio"
      return .accountEvent ⟨account_id_s⟩ broker ⟨account_number_s⟩ currency
        ⟨cash_balance_s⟩ ⟨cash_start_day_s⟩ ⟨cash_activity_day_s⟩
        ⟨margin_used_liq_s⟩ ⟨margin_used_maint_s⟩ ⟨margin_ratio_s⟩
        ⟨"NONE"⟩ event_id event_timestamp
    else if event_type = "OrderSubmitted" then do
      let order_id_s ← getStr unpacked "OrderId"
      let submitted_s ← getStr unpacked "SubmittedTime"
      return .orderSubmitted ⟨order_id_s⟩ (convert_string_to_datetime submitted_s)
        event_id event_timestamp
    else if event_type = "OrderAccepted" then do
      let order_id_s ← getStr unpacked "OrderId"
      let accepted_s ← getStr unpacked "AcceptedTime"
      return .orderAccepted ⟨order_id_s⟩ (convert_string_to_datetime accepted_s)
        event_id event_timestamp
    else if event_type = "OrderRejected" then do
      let order_id_s ← getStr unpacked "OrderId"
      let rejected_s ← getStr unpacked "RejectedTime"
      let reason_s ← getStr unpacked "RejectedReason"
      return .orderRejected ⟨order_id_s⟩ (convert_string_to_datetime rejected_s)
        ⟨reason_s⟩ event_id event_timestamp
    else if event_type = "OrderWorking" then do
      let order_id_s ← getStr unpacked "OrderId"
      let order_id_broker_s ← getStr unpacked "OrderIdBroker"
      let symbol_s ← getStr unpacked "Symbol"
      let label_s ← getStr unpacked "Label"
      let side_s ← getStr unpacked "OrderSide"
      let order_side ← enumLookup (order_side_from_string side_s) side_s
      let type_s ← getStr unpacked "OrderType"
      let order_type ← enumLookup (order_type_from_string type_s) type_s
      let quantity_i ← getInt unpacked "Quantity"
      let price_s ← getStr unpacked "Price"
      let tif_s ← getStr unpacked "TimeInForce"
      let time_in_force ← enumLookup (time_in_force_from_string tif_s) tif_s
      let working_s ← getStr unpacked "WorkingTime"
      let expire_s ← getStr unpacked "ExpireTime"
      return .orderWorking ⟨order_id_s⟩ ⟨order_id_broker_s⟩
        (parse_symbol symbol_s) ⟨label_s⟩ order_side order_type ⟨quantity_i⟩
        ⟨price_s⟩ time_in_force (convert_string_to_datetime working_s)
        event_id event_timestamp (convert_string_to_datetime expire_s)
    else if event_type = "OrderCancelled" then do
      let order_id_s ← getStr unpacked "OrderId"
      let cancelled_s ← getStr unpacked "CancelledTime"
      return .orderCancelled ⟨order_id_s⟩ (convert_string_to_datetime cancelled_s)
        event_id event_timestamp
    else if event_type = "OrderCancelReject" then do
      let order_id_s ← getStr unpacked "OrderId"
      let rejected_s ← getStr unpacked "RejectedTime"
      let response_s ← getStr unpacked "RejectedResponse"
      let reason_s ← getStr unpacked "RejectedReason"
      return .orderCancelReject ⟨order_id_s⟩ (convert_string_to_datetime rejected_s)
        ⟨response_s⟩ ⟨reason_s⟩ event_id event_timestamp
    else if event_type = "OrderModified" then do
      let order_id_s ← getStr unpacked "OrderId"
      let order_id_broker_s ← getStr unpacked "OrderIdBroker"
      let modified_price_s ← getStr unpacked "ModifiedPrice"
      let modified_s ← getStr unpacked "ModifiedTime"
      return .orderModified ⟨order_id_s⟩ ⟨order_id_broker_s⟩ ⟨modified_price_s⟩
        (convert_string_to_datetime modified_s) event_id event_timestamp
    else if event_type = "OrderExpired" then do
      let order_id_s ← getStr unpacked "OrderId"
      let expired_s ← getStr unpacked "ExpiredTime"
      return .orderExpired ⟨order_id_s⟩ (convert_string_to_datetime expired_s)
        event_id event_timestamp
    else if event_type = "OrderPartiallyFilled" then do
      let order_id_s ← getStr unpacked "OrderId"
      let execution_id_s ← getStr unpacked "ExecutionId"
      let execution_ticket_s ← getStr unpacked "ExecutionTicket"
      let symbol_s ← getStr unpacked "Symbol"
      let side_s ← getStr unpacked "OrderSide"
      let order_side ← enumLookup (order_side_from_string side_s) side_s
      let filled_i ← getInt unpacked "FilledQuantity"
      let leaves_i ← getInt unpacked "LeavesQuantity"
      let avg_price_s ← getStr unpacked "AveragePrice"
      let execution_s ← getStr unpacked "ExecutionTime"
      return .orderPartiallyFilled ⟨order_id_s⟩ ⟨execution_id_s⟩
        ⟨execution_ticket_s⟩ (parse_symbol symbol_s) order_side ⟨filled_i⟩
        ⟨leaves_i⟩ ⟨avg_price_s⟩ (convert_string_to_datetime execution_s)
        event_id event_timestamp
    else if event_type = "OrderFilled" then do
      let order_id_s ← getStr unpacked "OrderId"
      let execution_id_s ← getStr unpacked "ExecutionId"
      let execution_ticket_s ← getStr unpacked "ExecutionTicket"
      let symbol_s ← getStr unpacked "Symbol"
      let side_s ← getStr unpacked "OrderSide"
      let order_side ← enumLookup (order_side_from_string side_s) side_s
      let filled_i ← getInt unpacked "FilledQuantity"
      let avg_price_s ← getStr unpacked "AveragePrice"
      let execution_s ← getStr unpacked "ExecutionTime"
      return .orderFilled ⟨order_id_s⟩ ⟨execution_id_s⟩ ⟨execution_ticket_s⟩
        (parse_symbol symbol_s) order_side ⟨filled_i⟩ ⟨avg_price_s⟩
        (convert_string_to_datetime execution_s) event_id event_timestamp
    else
      .error (.valueError "Cannot deserialize event (unrecognized event).")

/- ### Commands -/

/-- Modelled from the spec (`inv_trader.commands` is not in the sources): the
closed Command variant set, with exactly the fields the codec reads and
writes.  Every command carries its own GUID and timestamp. -/
inductive Command : Type where
  | collateralInquiry (id : GUID) (timestamp : Option PyDatetime)
  | submitOrder (trader_id : TraderId) (strategy_id : StrategyId)
      (position_id : PositionId) (order : Order) (id : GUID)
      (timestamp : Option PyDatetime)
  | submitAtomicOrder (trader_id : TraderId) (strategy_id : StrategyId)
      (position_id : PositionId) (atomic_order : AtomicOrder) (id : GUID)
      (timestamp : Option PyDatetime)
  | modifyOrder (trader_id : TraderId) (strategy_id : StrategyId)
      (order_id : OrderId) (modified_price : Price) (id : GUID)
      (timestamp : Option PyDatetime)
  | cancelOrder (trader_id : TraderId) (strategy_id : StrategyId)
      (order_id : OrderId) (cancel_reason : ValidString) (id : GUID)
      (timestamp : Option PyDatetime)
  deriving DecidableEq

/-- The command's own GUID. -/
def Command.guidOf : Command → GUID
  | .collateralInquiry id _ => id
  | .submitOrder _ _ _ _ id _ => id
  | .submitAtomicOrder _ _ _ _ id _ => id
  | .modifyOrder _ _ _ _ id _ => id
  | .cancelOrder _ _ _ _ id _ => id

/-- The command's own timestamp. -/
def Command.timestampOf : Command → Option PyDatetime
  | .collateralInquiry _ ts => ts
  | .submitOrder _ _ _ _ _ ts => ts
  | .submitAtomicOrder _ _ _ _ _ ts => ts
  | .modifyOrder _ _ _ _ _ ts => ts
  | .cancelOrder _ _ _ _ _ ts => ts

/-- `MsgPackCommandSerializer.serialize` (serialization.pyx lines 192-240):
the common header (`Type`, `CommandId`, `CommandTimestamp`), then the variant
tag under `Command` and the variant's fields; nested orders are serialized to
bytes by the order serializer. -/
def MsgPackCommandSerializer.serialize (command : Command) : PyVal :=
  let header : List (String × PyVal) := [
    ("Type", .pstr "Command"),
    ("CommandId", .pstr command.guidOf.value),
    ("CommandTimestamp", .pstr (convert_datetime_to_string command.timestampOf))]
  match command with
  | .collateralInquiry _ _ =>
    packb (header ++ [("Command", .pstr "CollateralInquiry")])
  | .submitOrder trader_id strategy_id position_id order _ _ =>
    packb (header ++ [
      ("Command", .pstr "SubmitOrder"),
      ("TraderId", .pstr trader_id.value),
      ("StrategyId", .pstr strategy_id.value),
      ("PositionId", .pstr position_id.value),
      ("Order", MsgPackOrderSerializer.serialize (some order))])
  | .submitAtomicOrder trader_id strategy_id position_id atomic_order _ _ =>
    packb (header ++ [
      ("Command", .pstr "SubmitAtomicOrder"),
      ("TraderId", .pstr trader_id.value),
      ("StrategyId", .pstr strategy_id.value),
      ("PositionId", .pstr position_id.value),
      ("Entry", MsgPackOrderSerializer.serialize (some atomic_order.entry)),
      ("StopLoss", MsgPackOrderSerializer.serialize atomic_order.stop_loss),
      ("TakeProfit", MsgPackOrderSerializer.serialize atomic_order.take_profit)])
  | .modifyOrder trader_id strategy_id order_id modified_price _ _ =>
    packb (header ++ [
      ("Command", .pstr "ModifyOrder"),
      ("TraderId", .pstr trader_id.value),
      ("StrategyId", .pstr strategy_id.value),
      ("OrderId", .pstr order_id.value),
      ("ModifiedPrice", .pstr modified_price.value)])
  | .cancelOrder trader_id strategy_id order_id cancel_reason _ _ =>
    packb (header ++ [
      ("Command", .pstr "CancelOrder"),
      ("TraderId", .pstr trader_id.value),
      ("StrategyId", .pstr strategy_id.value),
      ("OrderId", .pstr order_id.value),
      ("CancelReason", .pstr cancel_reason.value)])

/-- The keys whose values the command deserializer keeps as raw bytes. -/
def orderKeys : List String :=
  ["Order", "Entry", "StopLoss", "TakeProfit"]

/-- One step of the manual unpack-and-decode loop of
`MsgPackCommandSerializer.deserialize` (serialization.pyx lines 260-268): a
value under `Order`/`Entry`/`StopLoss`/`TakeProfit` is kept as the raw bytes,
any other `bytes` value is UTF-8 decoded to a string, non-bytes values pass
through. -/
def decodeItem (k : String) (v : PyVal) : Except PyErr PyVal :=
  if k ∈ orderKeys then
    .ok v
  else
    match v with
    | .butf8 s => .ok (.pstr s)
    | .bempty => .ok (.pstr "")
    | .bpacked _ => .error .unicodeError
    | v => .ok v

/-- The whole manual unpack-and-decode loop over the raw-unpacked items. -/
def decodeUnpacked : List (String × PyVal) → Except PyErr (List (String × PyVal))
  | [] => .ok []
  | (k, v) :: rest => do
    let v1 ← decodeItem k v
    let rest1 ← decodeUnpacked rest
    return (k, v1) :: rest1

/-- `MsgPackCommandSerializer.deserialize` (serialization.pyx lines 242-313):
precondition, raw unpack, `Type` check on the raw bytes, the manual decode
loop, then dispatch on the `Command` tag; nested order values go to the order
deserializer as the raw bytes taken from the map. -/
def MsgPackCommandSerializer.deserialize (command_bytes : PyVal) :
    Except PyErr Command := do
  let _ ← Precondition.not_empty command_bytes "command_bytes"
  let unpacked_raw ← unpackbRaw command_bytes
  let tval ← getVal unpacked_raw "Type"
  let message_type ← bytesDecodeUtf8 tval
  if message_type ≠ "Command" then
    .error (.valueError "Cannot deserialize command (the message is not a type of command).")
  else
    let unpacked ← decodeUnpacked unpacked_raw
    let command ← getStr unpacked "Command"
    let command_id_s ← getStr unpacked "CommandId"
    let command_id : GUID := ⟨command_id_s⟩
    let command_timestamp := convert_string_to_datetime (← getStr unpacked "CommandTimestamp")
    if command = "CollateralInquiry" then
      return .collateralInquiry command_id command_timestamp
    else if command = "SubmitOrder" then do
      let trader_s ← getStr unpacked "TraderId"
      let strategy_s ← getStr unpacked "StrategyId"
      let position_s ← getStr unpacked "PositionId"
      let order_v ← getVal unpacked "Order"
      let order_o ← MsgPackOrderSerializer.deserialize order_v
      match order_o with
      | some order =>
        return .submitOrder ⟨trader_s⟩ ⟨strategy_s⟩ ⟨position_s⟩ order
          command_id command_timestamp
      | none => .error .typeError
    else if command = "SubmitAtomicOrder" then do
      let trader_s ← getStr unpacked "TraderId"
      let strategy_s ← getStr unpacked "StrategyId"
      let position_s ← getStr unpacked "PositionId"
      let entry_v ← getVal unpacked "Entry"
      let entry_o ← MsgPackOrderSerializer.deserialize entry_v
      let stop_loss_v ← getVal unpacked "StopLoss"
      let stop_loss ← MsgPackOrderSerializer.deserialize stop_loss_v
      let take_profit_v ← getVal unpacked "TakeProfit"
      let take_profit ← MsgPackOrderSerializer.deserialize take_profit_v
      match entry_o with
      | some entry =>
        return .submitAtomicOrder ⟨trader_s⟩ ⟨strategy_s⟩ ⟨position_s⟩
          ⟨entry, stop_loss, take_profit⟩ command_id command_timestamp
      | none => .error .typeError
    else if command = "ModifyOrder" then do
      let trader_s ← getStr unpacked "TraderId"
      let strategy_s ← getStr unpacked "StrategyId"
      let order_id_s ← getStr unpacked "OrderId"
      let modified_price_s ← getStr unpacked "ModifiedPrice"
      return .modifyOrder ⟨trader_s⟩ ⟨strategy_s⟩ ⟨order_id_s⟩
        ⟨modified_price_s⟩ command_id command_timestamp
    else if command = "CancelOrder" then do
      let trader_s ← getStr unpacked "TraderId"
      let strategy_s ← getStr unpacked "StrategyId"
      let order_id_s ← getStr unpacked "OrderId"
      let cancel_reason_s ← getStr unpacked "CancelReason"
      return .cancelOrder ⟨trader_s⟩ ⟨strategy_s⟩ ⟨order_id_s⟩
        ⟨cancel_reason_s⟩ command_id command_timestamp
    else
      .error (.valueError "Cannot deserialize command (unrecognized bytes pattern).")

/- ### Instruments -/

/-- Modelled from the spec (`inv_trader.model.objects` is not in the
sources): static market metadata, with exactly the fields the codec reads and
writes. -/
structure Instrument where
  id : InstrumentId
  symbol : TradeSymbol
  broker_symbol : String
  quote_currency : Currency
  security_type : SecurityType
  tick_precision : Int
  tick_size : PyDecimal
  round_lot_size : Quantity
  min_stop_distance_entry : Int
  min_stop_distance : Int
  min_limit_distance_entry : Int
  min_limit_distance : Int
  min_trade_size : Quantity
  max_trade_size : Quantity
  rollover_interest_buy : PyDecimal
  rollover_interest_sell : PyDecimal
  timestamp : Option PyDatetime
  deriving DecidableEq

/-- `MsgPackInstrumentSerializer.serialize` (serialization.pyx lines
563-588). -/
def MsgPackInstrumentSerializer.serialize (instrument : Instrument) : PyVal :=
  packb [
    ("Id", .pstr instrument.id.value),
    ("Symbol", .pstr instrument.symbol.value),
    ("BrokerSymbol", .pstr instrument.broker_symbol),
    ("QuoteCurrency", .pstr (currency_string instrument.quote_currency)),
    ("SecurityType", .pstr (security_type_string instrument.security_type)),
    ("TickPrecision", .pint instrument.tick_precision),
    ("TickSize", .pstr instrument.tick_size.value),
    ("RoundLotSize", .pint instrument.round_lot_size.value),
    ("MinStopDistanceEntry", .pint instrument.min_stop_distance_entry),
    ("MinStopDistance", .pint instrument.min_stop_distance),
    ("MinLimitDistanceEntry", .pint instrument.min_limit_distance_entry),
    ("MinLimitDistance", .pint instrument.min_limit_distance),
    ("MinTradeSize", .pint instrument.min_trade_size.value),
    ("MaxTradeSize", .pint instrument.max_trade_size.value),
    ("RollOverInterestBuy", .pstr instrument.rollover_interest_buy.value),
    ("RollOverInterestSell", .pstr instrument.rollover_interest_sell.value),
    ("Timestamp", .pstr (convert_datetime_to_string instrument.timestamp))]

/-- `MsgPackInstrumentSerializer.deserialize` (serialization.pyx lines
590-616): note that unlike the order, command and event deserializers it
performs no `Precondition.not_empty` check before unpacking. -/
def MsgPackInstrumentSerializer.deserialize (instrument_bytes : PyVal) :
    Except PyErr Instrument := do
  let unpacked ← unpackb instrument_bytes
  let id_s ← getStr unpacked "Id"
  let symbol_s ← getStr unpacked "Symbol"
  let broker_symbol ← getStr unpacked "BrokerSymbol"
  let quote_currency_s ← getStr unpacked "QuoteCurrency"
  let quote_currency ← enumLookup (currency_from_string quote_currency_s) quote_currency_s
  let security_type_s ← getStr unpacked "SecurityType"
  let security_type ← enumLookup (security_type_from_string security_type_s) security_type_s
  let tick_precision ← getInt unpacked "TickPrecision"
  let tick_size_s ← getStr unpacked "TickSize"
  let round_lot_size_i ← getInt unpacked "RoundLotSize"
  let min_stop_distance_entry ← getInt unpacked "MinStopDistanceEntry"
  let min_stop_distance ← getInt unpacked "MinStopDistance"
  let min_limit_distance_entry ← getInt unpacked "MinLimitDistanceEntry"
  let min_limit_distance ← getInt unpacked "MinLimitDistance"
  let min_trade_size_i ← getInt unpacked "MinTradeSize"
  let max_trade_size_i ← getInt unpacked "MaxTradeSize"
  let rollover_buy_s ← getStr unpacked "RollOverInterestBuy"
  let rollover_sell_s ← getStr unpacked "RollOverInterestSell"
  let timestamp_s ← getStr unpacked "Timestamp"
  return {
    id := ⟨id_s⟩,
    symbol := parse_symbol symbol_s,
    broker_symbol := broker_symbol,
    quote_currency := quote_currency,
    security_type := security_type,
    tick_precision := tick_precision,
    tick_size := ⟨tick_size_s⟩,
    round_lot_size := ⟨round_lot_size_i⟩,
    min_stop_distance_entry := min_stop_distance_entry,
    min_stop_distance := min_stop_distance,
    min_limit_distance_entry := min_limit_distance_entry,
    min_limit_distance := min_limit_distance,
    min_trade_size := ⟨min_trade_size_i⟩,
    max_trade_size := ⟨max_trade_size_i⟩,
    rollover_interest_buy := ⟨rollover_buy_s⟩,
    rollover_interest_sell := ⟨rollover_sell_s⟩,
    timestamp := convert_string_to_datetime timestamp_s }

/- ### Execution client registry

The repository snapshot contains only the `ExecutionClient` declaration
(`execution.pxd`); the implementation is modelled from the specification
(spec sections 3, 4.2 and 8). -/

/-- The registry state of an `ExecutionClient`: the order book (every order
ever registered), the active and completed registries, and the monotonic
event count. -/
structure ExecState where
  order_book : List (OrderId × Order)
  orders_active : List (OrderId × Order)
  orders_completed : List (OrderId × Order)
  event_count : Nat
  deriving DecidableEq

/-- The freshly constructed client: empty registries. -/
def ExecState.init : ExecState :=
  ⟨[], [], [], 0⟩

/-- Whether a registry holds an entry for the given order identifier. -/
def hasKey : List (OrderId × Order) → OrderId → Bool
  | [], _ => false
  | (k, _) :: rest, oid => decide (k = oid) || hasKey rest oid

/-- The registry entry for the given order identifier, if any. -/
def lookupKey : List (OrderId × Order) → OrderId → Option Order
  | [], _ => none
  | (k, o) :: rest, oid => if k = oid then some o else lookupKey rest oid

/-- Remove the entry for the given order identifier. -/
def removeKey : List (OrderId × Order) → OrderId → List (OrderId × Order)
  | [], _ => []
  | (k, o) :: rest, oid =>
    if k = oid then removeKey rest oid else (k, o) :: removeKey rest oid

/-- Modelled from the spec: `ExecutionClient._register_order` — an order is
registered into the order book and the active registry before the command is
forwarded to the adapter; an order identifier, once registered, is never
reassigned, so re-registration is rejected. -/
def ExecutionClient.register_order (s : ExecState) (order : Order) : ExecState :=
  if hasKey s.order_book order.id then
    s
  else
    { s with
      order_book := (order.id, order) :: s.order_book,
      orders_active := (order.id, order) :: s.orders_active }

/-- Modelled from the spec: `ExecutionClient.execute_command` dispatches by
command variant; `SubmitOrder` registers its order and `SubmitAtomicOrder`
registers its entry and present legs before forwarding to the adapter; the
remaining commands do not touch the registries. -/
def ExecutionClient.execute_command (s : ExecState) : Command → ExecState
  | .collateralInquiry _ _ => s
  | .submitOrder _ _ _ order _ _ => ExecutionClient.register_order s order
  | .submitAtomicOrder _ _ _ atomic_order _ _ =>
    let s1 := ExecutionClient.register_order s atomic_order.entry
    let s2 := match atomic_order.stop_loss with
      | some o => ExecutionClient.register_order s1 o
      | none => s1
    match atomic_order.take_profit with
    | some o => ExecutionClient.register_order s2 o
    | none => s2
  | .modifyOrder _ _ _ _ _ _ => s
  | .cancelOrder _ _ _ _ _ _ => s

/-- The order identifier an order event refers to (`AccountEvent` is not an
order event). -/
def Event.order_event_id : Event → Option OrderId
  | .accountEvent .. => none
  | .orderInitialized order_id _ _ _ _ _ _ _ _ _ _ => some order_id
  | .orderSubmitted order_id _ _ _ => some order_id
  | .orderAccepted order_id _ _ _ => some order_id
  | .orderRejected order_id _ _ _ _ => some order_id
  | .orderWorking order_id _ _ _ _ _ _ _ _ _ _ _ _ => some order_id
  | .orderCancelReject order_id _ _ _ _ _ => some order_id
  | .orderCancelled order_id _ _ _ => some order_id
  | .orderModified order_id _ _ _ _ _ => some order_id
  | .orderExpired order_id _ _ _ => some order_id
  | .orderPartiallyFilled order_id _ _ _ _ _ _ _ _ _ _ => some order_id
  | .orderFilled order_id _ _ _ _ _ _ _ _ _ => some order_id

/-- Whether the event is terminal for the order lifecycle (spec section 4.1:
`Rejected`, `Cancelled`, `Expired` and `Filled` are terminal). -/
def Event.is_terminal : Event → Bool
  | .orderRejected .. => true
  | .orderCancelled .. => true
  | .orderExpired .. => true
  | .orderFilled .. => true
  | _ => false

/-- Modelled from the spec: `ExecutionClient.handle_event` — an event for an
unknown order is logged and dropped; a known order's event increments the
event count and, when the event is terminal and the order is still active,
moves the order from the active to the completed registry (a duplicate
terminal event is rejected, not applied). -/
def ExecutionClient.handle_event (s : ExecState) (event : Event) : ExecState :=
  match Event.order_event_id event with
  | none => { s with event_count := s.event_count + 1 }
  | some oid =>
    if hasKey s.order_book oid then
      let s1 := { s with event_count := s.event_count + 1 }
      if Event.is_terminal event then
        match lookupKey s1.orders_active oid with
        | some ord =>
          { s1 with
            orders_active := removeKey s1.orders_active oid,
            orders_completed := (oid, ord) :: s1.orders_completed }
        | none => s1
      else s1
    else s

/-- A message arriving at the client: a command from a strategy or an event
from the broker feed. -/
inductive ExecMsg : Type where
  | cmd (c : Command)
  | ev (e : Event)
  deriving DecidableEq

/-- Apply one inbound message to the client state. -/
def ExecutionClient.apply_msg (s : ExecState) : ExecMsg → ExecState
  | .cmd c => ExecutionClient.execute_command s c
  | .ev e => ExecutionClient.handle_event s e

/-- Run a message sequence against a freshly constructed client. -/
def ExecutionClient.run (msgs : List ExecMsg) : ExecState :=
  msgs.foldl ExecutionClient.apply_msg ExecState.init

/- ### Claim theorems -/

/-- A concrete, fully valid `OrderInitialized` event. -/
def exampleOrderInitialized : Event :=
  .orderInitialized ⟨"O-19700101-000000-001-001-1"⟩ ⟨"AUDUSD.FXCM"⟩
    ⟨"SCALPER01_SL"⟩ .BUY .LIMIT ⟨100000⟩ ⟨"1.10000"⟩ .GTD
    (some ⟨"2019-03-05T15:30:00.000Z"⟩) ⟨"3f1469e7-27bd-4e73-9a54-8f2f0ee65561"⟩
    (some ⟨"2019-03-05T15:29:00.000Z"⟩)

/-- Claim C1 (code bug exhibited): the round-trip law fails on the closed
Event variant set because `MsgPackEventSerializer.deserialize` has no
`OrderInitialized` branch — deserializing the serialization of a valid
`OrderInitialized` event raises the unrecognized-event `ValueError` instead
of returning an equal event. -/
theorem event_roundtrip_fails_on_orderInitialized :
    MsgPackEventSerializer.deserialize
        (MsgPackEventSerializer.serialize exampleOrderInitialized) =
      .error (.valueError "Cannot deserialize event (unrecognized event).") := by
  rfl

/-- A concrete `AccountEvent` whose margin-call status is not the sentinel. -/
def exampleAccountEvent : Event :=
  .accountEvent ⟨"FXCM-123456789"⟩ .FXCM ⟨"123456789"⟩ .USD ⟨"1000000.00"⟩
    ⟨"1000000.00"⟩ ⟨"0.00"⟩ ⟨"2500.00"⟩ ⟨"5000.00"⟩ ⟨"0.1"⟩ ⟨"MARGIN_CALL"⟩
    ⟨"5d9a2d1c-4f6e-4c2e-8a5f-6c7d8e9f0a1b"⟩ (some ⟨"2019-03-05T15:00:00.000Z"⟩)

/-- Claim C2 (code bug exhibited): the `AccountEvent` decode path hardcodes
`ValidString('NONE')` for the margin-call status, so deserializing the
serialization of an `AccountEvent` whose status is `MARGIN_CALL` returns an
event carrying `NONE` — every other field round-trips, the encoded
margin-call status is silently discarded. -/
theorem accountEvent_margin_call_status_discarded :
    MsgPackEventSerializer.deserialize
        (MsgPackEventSerializer.serialize exampleAccountEvent) =
      .ok (.accountEvent ⟨"FXCM-123456789"⟩ .FXCM ⟨"123456789"⟩ .USD
        ⟨"1000000.00"⟩ ⟨"1000000.00"⟩ ⟨"0.00"⟩ ⟨"2500.00"⟩ ⟨"5000.00"⟩ ⟨"0.1"⟩
        ⟨"NONE"⟩ ⟨"5d9a2d1c-4f6e-4c2e-8a5f-6c7d8e9f0a1b"⟩
        (some ⟨"2019-03-05T15:00:00.000Z"⟩)) ∧
    (⟨"MARGIN_CALL"⟩ : ValidString) ≠ ⟨"NONE"⟩ := by
  exact ⟨by rfl, by decide⟩

/-- A well-formed encoded `OrderInitialized` message, written out as the wire
map the serializer produces for such events. -/
def exampleOrderInitializedBytes : PyVal :=
  packb [
    ("Type", .pstr "Event"),
    ("Event", .pstr "OrderInitialized"),
    ("EventId", .pstr "a8a3319e-1f92-4aa5-88a2-1b4d4a4974c3"),
    ("EventTimestamp", .pstr "2019-03-05T15:29:00.000Z"),
    ("OrderId", .pstr "O-19700101-000000-001-001-2"),
    ("Symbol", .pstr "GBPUSD.FXCM"),
    ("Label", .pstr "SCALPER01"),
    ("OrderSide", .pstr "SELL"),
    ("OrderType", .pstr "STOP_MARKET"),
    ("Quantity", .pint 50000),
    ("Price", .pstr "1.30000"),
    ("TimeInForce", .pstr "DAY"),
    ("ExpireTime", .pstr "NONE")]

/-- Claim C6 (code bug exhibited): `OrderInitialized` is in the closed Event
variant set and the serializer emits it, but the deserializer's dispatch has
no branch for it, so a well-formed encoded `OrderInitialized` message raises
the unrecognized-event `ValueError` instead of returning the event. -/
theorem orderInitialized_message_not_deserialized :
    MsgPackEventSerializer.deserialize exampleOrderInitializedBytes =
      .error (.valueError "Cannot deserialize event (unrecognized event).") := by
  rfl

/-- Whether a codec outcome is the precondition-violation failure. -/
def isPreconditionFailure {α : Type} : Except PyErr α → Bool
  | .error (.precondition _) => true
  | _ => false

/-- Claim C3 (counterexample): the instrument deserializer does not fail with
a precondition violation on the empty buffer — it has no
`Precondition.not_empty` check and fails inside `msgpack.unpackb` instead,
unlike the order deserializer. -/
theorem instrument_deserialize_empty_not_precondition :
    isPreconditionFailure (MsgPackInstrumentSerializer.deserialize PyVal.bempty) = false ∧
    isPreconditionFailure (MsgPackOrderSerializer.deserialize PyVal.bempty) = true := by
  exact ⟨rfl, rfl⟩

/-- Claim C3 (amended): on the empty byte buffer the order, command and event
deserializers fail immediately with the precondition violation; the
instrument deserializer, which performs no precondition check, fails inside
the MessagePack unpacker.  None of the four ever returns a default object. -/
theorem deserialize_empty_buffer_fails :
    MsgPackOrderSerializer.deserialize PyVal.bempty =
      .error (.precondition "order_bytes") ∧
    MsgPackCommandSerializer.deserialize PyVal.bempty =
      .error (.precondition "command_bytes") ∧
    MsgPackEventSerializer.deserialize PyVal.bempty =
      .error (.precondition "event_bytes") ∧
    MsgPackInstrumentSerializer.deserialize PyVal.bempty =
      .error PyErr.unpackError := by
  exact ⟨rfl, rfl, rfl, rfl⟩

/-- Validity of an optional order (the null order is always valid). -/
def optOrderValidb : Option Order → Bool
  | none => true
  | some o => Order.validb o

/-- Order bytes are already bytes: the raw unpack leaves them unchanged. -/
theorem rawify_order_serialize (oo : Option Order) :
    rawify (MsgPackOrderSerializer.serialize oo) =
      MsgPackOrderSerializer.serialize oo := by
  cases oo <;> rfl

/-- Decoding an encoded optional order restores it, minting fresh `init_id`s;
the null order comes back as the null order. -/
theorem option_order_roundtrip (oo : Option Order) (h : optOrderValidb oo = true) :
    MsgPackOrderSerializer.deserialize (MsgPackOrderSerializer.serialize oo) =
      .ok (oo.map Order.regenInit) := by
  cases oo with
  | none => rfl
  | some o => simpa using order_serialize_roundtrip o (by simpa [optOrderValidb] using h)

/-- The empty map decodes to the null order. -/
theorem deserialize_null_order :
    MsgPackOrderSerializer.deserialize (.bpacked []) = .ok none := by
  rfl

/-- `order_serialize_roundtrip`, restated on the packed field map. -/
theorem deserialize_orderFields (o : Order) (h : Order.validb o = true) :
    MsgPackOrderSerializer.deserialize (.bpacked (orderFields o)) =
      .ok (some o.regenInit) := by
  simpa [MsgPackOrderSerializer.serialize, packb] using order_serialize_roundtrip o h

/-- A valid command: its timestamp and every nested order are valid. -/
def Command.validb : Command → Bool
  | .collateralInquiry _ ts => dtValidb ts
  | .submitOrder _ _ _ order _ ts => Order.validb order && dtValidb ts
  | .submitAtomicOrder _ _ _ atomic_order _ ts =>
    Order.validb atomic_order.entry && optOrderValidb atomic_order.stop_loss &&
      optOrderValidb atomic_order.take_profit && dtValidb ts
  | .modifyOrder _ _ _ _ _ ts => dtValidb ts
  | .cancelOrder _ _ _ _ _ ts => dtValidb ts

/-- The command as rebuilt by the decoder: identical except that every nested
order's `init_id` is freshly minted. -/
def Command.regenInit : Command → Command
  | .submitOrder trader_id strategy_id position_id order id ts =>
    .submitOrder trader_id strategy_id position_id (Order.regenInit order) id ts
  | .submitAtomicOrder trader_id strategy_id position_id atomic_order id ts =>
    .submitAtomicOrder trader_id strategy_id position_id
      ⟨Order.regenInit atomic_order.entry,
        atomic_order.stop_loss.map Order.regenInit,
        atomic_order.take_profit.map Order.regenInit⟩ id ts
  | c => c

/-- Decoding an encoded valid command restores it, with nested order
`init_id`s freshly minted (shared helper for the command-level claims). -/
theorem command_deserialize_serialize (c : Command) (h : Command.validb c = true) :
    MsgPackCommandSerializer.deserialize (MsgPackCommandSerializer.serialize c) =
      .ok (Command.regenInit c) := by
  cases c with
  | collateralInquiry id ts =>
    have ht : dtValidb ts = true := by simpa [Command.validb] using h
    simp [MsgPackCommandSerializer.serialize, MsgPackCommandSerializer.deserialize,
      packb, unpackbRaw, rawify, Precondition.not_empty, getVal, getStr, mlookup,
      decodeUnpacked, decodeItem, orderKeys, bytesDecodeUtf8, Command.regenInit,
      Command.guidOf, Command.timestampOf, bind, Except.bind, pure, Except.pure, ht]
  | submitOrder trader_id strategy_id position_id order id ts =>
    have h2 := h
    simp only [Command.validb, Bool.and_eq_true] at h2
    obtain ⟨ho, ht⟩ := h2
    simp [MsgPackCommandSerializer.serialize, MsgPackCommandSerializer.deserialize,
      MsgPackOrderSerializer.serialize, packb, unpackbRaw, rawify,
      Precondition.not_empty, getVal, getStr, mlookup, decodeUnpacked, decodeItem,
      orderKeys, bytesDecodeUtf8, Command.regenInit, Command.guidOf,
      Command.timestampOf, bind, Except.bind, pure, Except.pure, ht, ho,
      deserialize_orderFields]
  | submitAtomicOrder trader_id strategy_id position_id atomic_order id ts =>
    obtain ⟨entry, sl, tp⟩ := atomic_order
    have h2 := h
    simp only [Command.validb, Bool.and_eq_true] at h2
    obtain ⟨⟨⟨he, hs⟩, hp⟩, ht⟩ := h2
    cases sl with
    | none =>
      cases tp with
      | none =>
        simp [MsgPackCommandSerializer.serialize, MsgPackCommandSerializer.deserialize,
          MsgPackOrderSerializer.serialize, packb, unpackbRaw, rawify,
          Precondition.not_empty, getVal, getStr, mlookup, decodeUnpacked,
          decodeItem, orderKeys, bytesDecodeUtf8, Command.regenInit,
          Command.guidOf, Command.timestampOf, bind, Except.bind, pure,
          Except.pure, ht, he, deserialize_orderFields, deserialize_null_order]
      | some otp =>
        have hp2 : Order.validb otp = true := by simpa [optOrderValidb] using hp
        simp [MsgPackCommandSerializer.serialize, MsgPackCommandSerializer.deserialize,
          MsgPackOrderSerializer.serialize, packb, unpackbRaw, rawify,
          Precondition.not_empty, getVal, getStr, mlookup, decodeUnpacked,
          decodeItem, orderKeys, bytesDecodeUtf8, Command.regenInit,
          Command.guidOf, Command.timestampOf, bind, Except.bind, pure,
          Except.pure, ht, he, hp2, deserialize_orderFields, deserialize_null_order]
    | some osl =>
      have hs2 : Order.validb osl = true := by simpa [optOrderValidb] using hs
      cases tp with
      | none =>
        simp [MsgPackCommandSerializer.serialize, MsgPackCommandSerializer.deserialize,
          MsgPackOrderSerializer.serialize, packb, unpackbRaw, rawify,
          Precondition.not_empty, getVal, getStr, mlookup, decodeUnpacked,
          decodeItem, orderKeys, bytesDecodeUtf8, Command.regenInit,
          Command.guidOf, Command.timestampOf, bind, Except.bind, pure,
          Except.pure, ht, he, hs2, deserialize_orderFields, deserialize_null_order]
      | some otp =>
        have hp2 : Order.validb otp = true := by simpa [optOrderValidb] using hp
        simp [MsgPackCommandSerializer.serialize, MsgPackCommandSerializer.deserialize,
          MsgPackOrderSerializer.serialize, packb, unpackbRaw, rawify,
          Precondition.not_empty, getVal, getStr, mlookup, decodeUnpacked,
          decodeItem, orderKeys, bytesDecodeUtf8, Command.regenInit,
          Command.guidOf, Command.timestampOf, bind, Except.bind, pure,
          Except.pure, ht, he, hs2, hp2, deserialize_orderFields,
          deserialize_null_order]
  | modifyOrder trader_id strategy_id order_id modified_price id ts =>
    have ht : dtValidb ts = true := by simpa [Command.validb] using h
    simp [MsgPackCommandSerializer.serialize, MsgPackCommandSerializer.deserialize,
      packb, unpackbRaw, rawify, Precondition.not_empty, getVal, getStr, mlookup,
      decodeUnpacked, decodeItem, orderKeys, bytesDecodeUtf8, Command.regenInit,
      Command.guidOf, Command.timestampOf, bind, Except.bind, pure, Except.pure, ht]
  | cancelOrder trader_id strategy_id order_id cancel_reason id ts =>
    have ht : dtValidb ts = true := by simpa [Command.validb] using h
    simp [MsgPackCommandSerializer.serialize, MsgPackCommandSerializer.deserialize,
      packb, unpackbRaw, rawify, Precondition.not_empty, getVal, getStr, mlookup,
      decodeUnpacked, decodeItem, orderKeys, bytesDecodeUtf8, Command.regenInit,
      Command.guidOf, Command.timestampOf, bind, Except.bind, pure, Except.pure, ht]

/-- Claim C5 (amended): for every valid command of the closed variant set,
decoding its encoding restores it field for field — except that each nested
order comes back with a freshly minted `init_id`, because the decoder never
reads the serialized `InitId` field and the order constructor mints its own.
Commands without nested orders round-trip exactly.  Decimal price strings
are reproduced exactly. -/
theorem command_serialize_roundtrip (c : Command) (h : Command.validb c = true) :
    MsgPackCommandSerializer.deserialize (MsgPackCommandSerializer.serialize c) =
      .ok (Command.regenInit c) :=
  command_deserialize_serialize c h

/-- A concrete, fully valid order whose `init_id` is not the fresh mint. -/
def exampleOrder : Order :=
  ⟨⟨"O-19700101-000000-001-001-3"⟩, ⟨"AUDUSD.FXCM"⟩, .BUY, .LIMIT, ⟨100000⟩,
    some ⟨"1.10000"⟩, some ⟨"S1_E"⟩, .GTD, some ⟨"2019-03-05T15:30:00.000Z"⟩,
    some ⟨"2019-03-05T15:00:00.000Z"⟩, ⟨"e5ecd157-4bb7-4db2-9e4d-1b0fd3e1a2f8"⟩⟩

/-- A concrete `SubmitOrder` command wrapping `exampleOrder`. -/
def exampleSubmitOrder : Command :=
  .submitOrder ⟨"TESTER-000"⟩ ⟨"S1-1"⟩ ⟨"P-123456"⟩ exampleOrder
    ⟨"1e6c74b9-2f6a-4c4e-94f5-8c3a1e2d4f5a"⟩ (some ⟨"2019-03-05T15:01:00.000Z"⟩)

/-- Claim C5 (counterexample): a `SubmitOrder` command does not round-trip
field for field — the nested order's `init_id` is regenerated on decode, so
the decoded command differs from the original. -/
theorem command_roundtrip_not_field_exact :
    MsgPackCommandSerializer.deserialize
        (MsgPackCommandSerializer.serialize exampleSubmitOrder) =
      .ok (Command.regenInit exampleSubmitOrder) ∧
    Command.regenInit exampleSubmitOrder ≠ exampleSubmitOrder := by
  exact ⟨by rfl, by decide⟩

/-- A concrete, fully valid `CancelOrder` command. -/
def exampleCancelOrder : Command :=
  .cancelOrder ⟨"TESTER-000"⟩ ⟨"S1-1"⟩ ⟨"O-19700101-000000-001-001-4"⟩
    ⟨"EXPIRED"⟩ ⟨"8c7e1f2a-3b4c-4d5e-8f90-a1b2c3d4e5f6"⟩
    (some ⟨"2019-03-05T15:02:00.000Z"⟩)

/-- Witness for `command_serialize_roundtrip` at a concrete valid command. -/
theorem command_serialize_roundtrip_witness :
    Command.validb exampleCancelOrder = true ∧
    MsgPackCommandSerializer.deserialize
        (MsgPackCommandSerializer.serialize exampleCancelOrder) =
      .ok (Command.regenInit exampleCancelOrder) :=
  ⟨by decide, command_serialize_roundtrip exampleCancelOrder (by decide)⟩

/-- Claim C4: the null order serializes to the packed empty map, the packed
empty map deserializes to the null order, and a `SubmitAtomicOrder` whose
stop-loss and take-profit legs are absent round-trips with those legs still
absent (not as zero-valued orders). -/
theorem null_order_law :
    MsgPackOrderSerializer.serialize none = packb [] ∧
    MsgPackOrderSerializer.deserialize (packb []) = .ok none ∧
    ∀ (entry : Order) (trader_id : TraderId) (strategy_id : StrategyId)
      (position_id : PositionId) (g : GUID) (ts : Option PyDatetime),
      Order.validb entry = true → dtValidb ts = true →
      MsgPackCommandSerializer.deserialize (MsgPackCommandSerializer.serialize
          (.submitAtomicOrder trader_id strategy_id position_id
            ⟨entry, none, none⟩ g ts)) =
        .ok (.submitAtomicOrder trader_id strategy_id position_id
          ⟨Order.regenInit entry, none, none⟩ g ts) := by
  refine ⟨rfl, rfl, fun entry trader_id strategy_id position_id g ts he ht => ?_⟩
  have hv : Command.validb (.submitAtomicOrder trader_id strategy_id position_id
      ⟨entry, none, none⟩ g ts) = true := by
    simp [Command.validb, optOrderValidb, he, ht]
  simpa [Command.regenInit] using command_deserialize_serialize _ hv

/-- A concrete, fully valid entry order for the atomic-order witness. -/
def exampleEntryOrder : Order :=
  ⟨⟨"O-19700101-000000-001-001-5"⟩, ⟨"GBPUSD.FXCM"⟩, .SELL, .STOP_MARKET,
    ⟨50000⟩, some ⟨"1.30000"⟩, none, .DAY, none,
    some ⟨"2019-03-05T15:03:00.000Z"⟩, ⟨"f1a2b3c4-d5e6-4f70-8192-a3b4c5d6e7f8"⟩⟩

/-- Witness for `null_order_law` at a concrete atomic order with both legs
absent. -/
theorem null_order_law_witness :
    Order.validb exampleEntryOrder = true ∧
    MsgPackCommandSerializer.deserialize (MsgPackCommandSerializer.serialize
        (.submitAtomicOrder ⟨"TESTER-000"⟩ ⟨"S1-1"⟩ ⟨"P-123457"⟩
          ⟨exampleEntryOrder, none, none⟩
          ⟨"0a1b2c3d-4e5f-4a6b-8c7d-9e0f1a2b3c4d"⟩
          (some ⟨"2019-03-05T15:04:00.000Z"⟩))) =
      .ok (.submitAtomicOrder ⟨"TESTER-000"⟩ ⟨"S1-1"⟩ ⟨"P-123457"⟩
        ⟨Order.regenInit exampleEntryOrder, none, none⟩
        ⟨"0a1b2c3d-4e5f-4a6b-8c7d-9e0f1a2b3c4d"⟩
        (some ⟨"2019-03-05T15:04:00.000Z"⟩)) :=
  ⟨by decide,
    null_order_law.2.2 exampleEntryOrder ⟨"TESTER-000"⟩ ⟨"S1-1"⟩ ⟨"P-123457"⟩
      ⟨"0a1b2c3d-4e5f-4a6b-8c7d-9e0f1a2b3c4d"⟩
      (some ⟨"2019-03-05T15:04:00.000Z"⟩) (by decide) (by decide)⟩

/-- Lookup in the raw-unpacked map is lookup in the packed map, with the
value put in raw form. -/
theorem mlookup_map_rawify (k : String) (kvs : List (String × PyVal)) :
    mlookup k (kvs.map fun kv => (kv.1, rawify kv.2)) =
      (mlookup k kvs).map rawify := by
  induction kvs with
  | nil => rfl
  | cons kv rest ih =>
    obtain ⟨k1, v⟩ := kv
    by_cases hk : k1 = k
    · simp [mlookup, hk]
    · simp [mlookup, hk, ih]

/-- `rawify` on a string value. -/
theorem rawify_pstr (s : String) : rawify (.pstr s) = .butf8 s := by
  rfl

/-- Claim C7: a message whose `Type` field is not the expected discriminator,
or whose `Command`/`Event` variant tag is not in the recognized vocabulary,
is rejected by the command and event deserializers with the corresponding
`ValueError`; no partially parsed or default object is ever returned. -/
theorem deserialize_rejects_unrecognized_tags :
    (∀ (kvs : List (String × PyVal)) (t : String),
      mlookup "Type" kvs = some (.pstr t) → t ≠ "Command" →
      MsgPackCommandSerializer.deserialize (.bpacked kvs) =
        .error (.valueError "Cannot deserialize command (the message is not a type of command).")) ∧
    (∀ (kvs dm : List (String × PyVal)) (c g ts : String),
      mlookup "Type" kvs = some (.pstr "Command") →
      decodeUnpacked (kvs.map fun kv => (kv.1, rawify kv.2)) = .ok dm →
      mlookup "Command" dm = some (.pstr c) →
      mlookup "CommandId" dm = some (.pstr g) →
      mlookup "CommandTimestamp" dm = some (.pstr ts) →
      c ∉ ["CollateralInquiry", "SubmitOrder", "SubmitAtomicOrder",
        "ModifyOrder", "CancelOrder"] →
      MsgPackCommandSerializer.deserialize (.bpacked kvs) =
        .error (.valueError "Cannot deserialize command (unrecognized bytes pattern).")) ∧
    (∀ (kvs : List (String × PyVal)) (t : String),
      mlookup "Type" kvs = some (.pstr t) → t ≠ "Event" →
      MsgPackEventSerializer.deserialize (.bpacked kvs) =
        .error (.valueError "Cannot deserialize event (the message is not a type of event).")) ∧
    (∀ (kvs : List (String × PyVal)) (e g ts : String),
      mlookup "Type" kvs = some (.pstr "Event") →
      mlookup "Event" kvs = some (.pstr e) →
      mlookup "EventId" kvs = some (.pstr g) →
      mlookup "EventTimestamp" kvs = some (.pstr ts) →
      e ∉ ["AccountEvent", "OrderSubmitted", "OrderAccepted", "OrderRejected",
        "OrderWorking", "OrderCancelled", "OrderCancelReject", "OrderModified",
        "OrderExpired", "OrderPartiallyFilled", "OrderFilled"] →
      MsgPackEventSerializer.deserialize (.bpacked kvs) =
        .error (.valueError "Cannot deserialize event (unrecognized event).")) := by
  refine ⟨?_, ?_, ?_, ?_⟩
  · intro kvs t hT ht
    simp [MsgPackCommandSerializer.deserialize, Precondition.not_empty,
      unpackbRaw, getVal, mlookup_map_rawify, hT, rawify_pstr, bytesDecodeUtf8,
      bind, Except.bind, pure, Except.pure, ht]
  · intro kvs dm c g ts hT hdm hc hid hts hbad
    simp only [List.mem_cons, List.not_mem_nil, or_false, not_or] at hbad
    obtain ⟨h1, h2, h3, h4, h5⟩ := hbad
    simp [MsgPackCommandSerializer.deserialize, Precondition.not_empty,
      unpackbRaw, getVal, getStr, mlookup_map_rawify, hT, rawify_pstr,
      bytesDecodeUtf8, hdm, hc, hid, hts, bind, Except.bind, pure, Except.pure,
      h1, h2, h3, h4, h5]
  · intro kvs t hT ht
    simp [MsgPackEventSerializer.deserialize, Precondition.not_empty, unpackb,
      getVal, getStr, hT, bind, Except.bind, pure, Except.pure, ht]
  · intro kvs e g ts hT he hid hts hbad
    simp only [List.mem_cons, List.not_mem_nil, or_false, not_or] at hbad
    obtain ⟨h1, h2, h3, h4, h5, h6, h7, h8, h9, h10, h11⟩ := hbad
    simp [MsgPackEventSerializer.deserialize, Precondition.not_empty, unpackb,
      getVal, getStr, hT, he, hid, hts, bind, Except.bind, pure, Except.pure,
      h1, h2, h3, h4, h5, h6, h7, h8, h9, h10, h11]

/-- Witness for `deserialize_rejects_unrecognized_tags` at concrete
messages. -/
theorem deserialize_rejects_unrecognized_tags_witness :
    MsgPackCommandSerializer.deserialize (.bpacked [("Type", .pstr "Quote")]) =
      .error (.valueError "Cannot deserialize command (the message is not a type of command).") ∧
    MsgPackCommandSerializer.deserialize (.bpacked [
        ("Type", .pstr "Command"),
        ("Command", .pstr "TeleportOrder"),
        ("CommandId", .pstr "11111111-2222-3333-4444-555555555555"),
        ("CommandTimestamp", .pstr "2019-03-05T15:05:00.000Z")]) =
      .error (.valueError "Cannot deserialize command (unrecognized bytes pattern).") ∧
    MsgPackEventSerializer.deserialize (.bpacked [("Type", .pstr "Command")]) =
      .error (.valueError "Cannot deserialize event (the message is not a type of event).") ∧
    MsgPackEventSerializer.deserialize (.bpacked [
        ("Type", .pstr "Event"),
        ("Event", .pstr "OrderTeleported"),
        ("EventId", .pstr "66666666-7777-8888-9999-aaaaaaaaaaaa"),
        ("EventTimestamp", .pstr "2019-03-05T15:06:00.000Z")]) =
      .error (.valueError "Cannot deserialize event (unrecognized event).") := by
  refine ⟨?_, ?_, ?_, ?_⟩
  · exact deserialize_rejects_unrecognized_tags.1 _ "Quote" (by rfl) (by decide)
  · exact deserialize_rejects_unrecognized_tags.2.1 _
      [("Type", .pstr "Command"),
        ("Command", .pstr "TeleportOrder"),
        ("CommandId", .pstr "11111111-2222-3333-4444-555555555555"),
        ("CommandTimestamp", .pstr "2019-03-05T15:05:00.000Z")]
      "TeleportOrder" "11111111-2222-3333-4444-555555555555"
      "2019-03-05T15:05:00.000Z" (by rfl) (by rfl) (by rfl) (by rfl) (by rfl)
      (by decide)
  · exact deserialize_rejects_unrecognized_tags.2.2.1 _ "Command" (by rfl) (by decide)
  · exact deserialize_rejects_unrecognized_tags.2.2.2 _ "OrderTeleported"
      "66666666-7777-8888-9999-aaaaaaaaaaaa" "2019-03-05T15:06:00.000Z"
      (by rfl) (by rfl) (by rfl) (by rfl) (by decide)

/-- The quantity-valued wire fields. -/
def quantityKeys : List String :=
  ["Quantity", "FilledQuantity", "LeavesQuantity"]

/-- The Price- and Money-valued wire fields. -/
def priceMoneyKeys : List String :=
  ["Price", "ModifiedPrice", "AveragePrice", "CashBalance", "CashStartDay",
    "CashActivityDay", "MarginUsedLiquidation", "MarginUsedMaintenance"]

/-- Whether the value is a native MessagePack integer. -/
def PyVal.isInt : PyVal → Bool
  | .pint _ => true
  | _ => false

/-- Whether the value is a MessagePack string. -/
def PyVal.isStr : PyVal → Bool
  | .pstr _ => true
  | _ => false

/-- A packed message obeys the numeric encoding discipline: every
quantity-valued field is a native integer and every Price/Money-valued field
is a string (in particular, never a binary float — the codec's value domain
has no float at all). -/
def encodedFieldsOk : PyVal → Bool
  | .bpacked kvs =>
    kvs.all fun kv =>
      if kv.1 ∈ quantityKeys then kv.2.isInt
      else if kv.1 ∈ priceMoneyKeys then kv.2.isStr
      else true
  | _ => false

/-- The entries of a packed message. -/
def packedEntries : PyVal → List (String × PyVal)
  | .bpacked kvs => kvs
  | _ => []

/-- Claim C8: in every message produced by the codec layer the
quantity-valued fields (`Quantity`, `FilledQuantity`, `LeavesQuantity`) are
encoded as native integers and every Price/Money-valued field (`Price`,
`ModifiedPrice`, `AveragePrice`, `CashBalance`, `CashStartDay`,
`CashActivityDay`, `MarginUsedLiquidation`, `MarginUsedMaintenance`) as a
string, never as binary floating point; moreover the encoded values are the
exact native integer and exact decimal string of the source fields, shown
here for the order map, a partial fill, a modification and an account
event. -/
theorem codec_numeric_encoding (e : Event) (c : Command) (o : Order)
    (oid boid : OrderId) (eid : ExecutionId) (et : ExecutionTicket)
    (sym : TradeSymbol) (side : OrderSide) (fq lq : Quantity) (ap mp : Price)
    (extime : Option PyDatetime) (g : GUID) (ts : Option PyDatetime)
    (tid : TraderId) (sid : StrategyId) (mtime : Option PyDatetime) :
    encodedFieldsOk (MsgPackEventSerializer.serialize e) = true ∧
    encodedFieldsOk (MsgPackCommandSerializer.serialize c) = true ∧
    encodedFieldsOk (MsgPackOrderSerializer.serialize (some o)) = true ∧
    mlookup "Quantity" (packedEntries (MsgPackOrderSerializer.serialize (some o))) =
      some (.pint o.quantity.value) ∧
    mlookup "Price" (packedEntries (MsgPackOrderSerializer.serialize (some o))) =
      some (.pstr (convert_price_to_string o.price)) ∧
    mlookup "FilledQuantity" (packedEntries (MsgPackEventSerializer.serialize
        (.orderPartiallyFilled oid eid et sym side fq lq ap extime g ts))) =
      some (.pint fq.value) ∧
    mlookup "LeavesQuantity" (packedEntries (MsgPackEventSerializer.serialize
        (.orderPartiallyFilled oid eid et sym side fq lq ap extime g ts))) =
      some (.pint lq.value) ∧
    mlookup "AveragePrice" (packedEntries (MsgPackEventSerializer.serialize
        (.orderPartiallyFilled oid eid et sym side fq lq ap extime g ts))) =
      some (.pstr ap.value) ∧
    mlookup "ModifiedPrice" (packedEntries (MsgPackCommandSerializer.serialize
        (.modifyOrder tid sid oid mp g ts))) =
      some (.pstr mp.value) ∧
    mlookup "ModifiedPrice" (packedEntries (MsgPackEventSerializer.serialize
        (.orderModified oid boid mp mtime g ts))) =
      some (.pstr mp.value) := by
  refine ⟨?_, ?_, ?_, ?_, ?_, ?_, ?_, ?_, ?_, ?_⟩
  · cases e <;> rfl
  · cases c <;> rfl
  · rfl
  all_goals rfl

/-- Claim C10: the manual decode loop of the command deserializer leaves the
values under `Order`, `Entry`, `StopLoss` and `TakeProfit` exactly as the raw
bytes taken from the unpacked map (they are then handed to the nested order
deserializer), while every other byte-string value is UTF-8 decoded to a
string; and in the decoded map each of the four order keys still holds the
raw value of the unpacked map. -/
theorem order_values_pass_raw :
    (∀ (kvs out : List (String × PyVal)), decodeUnpacked kvs = .ok out →
      List.Forall₂ (fun a b : String × PyVal => a.1 = b.1 ∧
        (a.1 ∈ orderKeys → b.2 = a.2) ∧
        (a.1 ∉ orderKeys → ∀ s, a.2 = .butf8 s → b.2 = .pstr s)) kvs out) ∧
    (∀ (kvs out : List (String × PyVal)) (k : String), k ∈ orderKeys →
      decodeUnpacked kvs = .ok out → mlookup k out = mlookup k kvs) := by
  have main : ∀ (kvs out : List (String × PyVal)), decodeUnpacked kvs = .ok out →
      List.Forall₂ (fun a b : String × PyVal => a.1 = b.1 ∧
        (a.1 ∈ orderKeys → b.2 = a.2) ∧
        (a.1 ∉ orderKeys → ∀ s, a.2 = .butf8 s → b.2 = .pstr s)) kvs out := by
    intro kvs
    induction kvs with
    | nil =>
      intro out h
      simp only [decodeUnpacked] at h
      cases h
      exact List.Forall₂.nil
    | cons kv rest ih =>
      intro out h
      obtain ⟨k, v⟩ := kv
      simp only [decodeUnpacked, bind, Except.bind] at h
      cases hv : decodeItem k v with
      | error e => rw [hv] at h; cases h
      | ok v1 =>
        rw [hv] at h
        cases hr : decodeUnpacked rest with
        | error e => rw [hr] at h; cases h
        | ok rest1 =>
          rw [hr] at h
          simp only [pure, Except.pure, Except.ok.injEq] at h
          subst h
          refine List.Forall₂.cons ⟨rfl, ?_, ?_⟩ (ih rest1 hr)
          · intro hk
            simp only [decodeItem, if_pos hk] at hv
            cases hv
            rfl
          · intro hk s hs
            subst hs
            simp only [decodeItem, if_neg hk] at hv
            cases hv
            rfl
  refine ⟨main, ?_⟩
  intro kvs
  induction kvs with
  | nil =>
    intro out k _ h
    simp only [decodeUnpacked] at h
    cases h
    rfl
  | cons kv rest ih =>
    intro out k hk h
    obtain ⟨k1, v⟩ := kv
    simp only [decodeUnpacked, bind, Except.bind] at h
    cases hv : decodeItem k1 v with
    | error e => rw [hv] at h; cases h
    | ok v1 =>
      rw [hv] at h
      cases hr : decodeUnpacked rest with
      | error e => rw [hr] at h; cases h
      | ok rest1 =>
        rw [hr] at h
        simp only [pure, Except.pure, Except.ok.injEq] at h
        subst h
        by_cases hkk : k1 = k
        · subst hkk
          have : v1 = v := by
            simp only [decodeItem, if_pos hk] at hv
            cases hv
            rfl
          simp [mlookup, this]
        · simp [mlookup, hkk, ih rest1 k hk hr]

/-- Witness for `order_values_pass_raw` at a concrete raw-unpacked map. -/
theorem order_values_pass_raw_witness :
    decodeUnpacked [
        ("Type", .butf8 "Command"),
        ("Order", .bpacked [("Id", .butf8 "O-1")]),
        ("TraderId", .butf8 "TESTER-000")] =
      .ok [
        ("Type", .pstr "Command"),
        ("Order", .bpacked [("Id", .butf8 "O-1")]),
        ("TraderId", .pstr "TESTER-000")] ∧
    mlookup "Order" [
        ("Type", .pstr "Command"),
        ("Order", .bpacked [("Id", .butf8 "O-1")]),
        ("TraderId", .pstr "TESTER-000")] =
      mlookup "Order" [
        ("Type", .butf8 "Command"),
        ("Order", .bpacked [("Id", .butf8 "O-1")]),
        ("TraderId", .butf8 "TESTER-000")] :=
  ⟨by rfl,
    order_values_pass_raw.2 _ _ "Order" (by decide) (by rfl)⟩

/-- `hasKey` on a cons cell. -/
theorem hasKey_cons (k : OrderId) (o : Order) (l : List (OrderId × Order))
    (x : OrderId) :
    hasKey ((k, o) :: l) x = (decide (k = x) || hasKey l x) := by
  rfl

/-- Removing an identifier removes it. -/
theorem hasKey_removeKey_self (l : List (OrderId × Order)) (x : OrderId) :
    hasKey (removeKey l x) x = false := by
  induction l with
  | nil => rfl
  | cons kv rest ih =>
    obtain ⟨k, o⟩ := kv
    by_cases hk : k = x
    · simpa [removeKey, hk] using ih
    · simpa [removeKey, hasKey, hk] using ih

/-- Removing one identifier leaves the others untouched. -/
theorem hasKey_removeKey_ne (l : List (OrderId × Order)) (x y : OrderId)
    (h : y ≠ x) :
    hasKey (removeKey l x) y = hasKey l y := by
  induction l with
  | nil => rfl
  | cons kv rest ih =>
    obtain ⟨k, o⟩ := kv
    by_cases hk : k = x
    · subst hk
      have hxy : decide (k = y) = false := decide_eq_false fun hxy => h hxy.symm
      simp [removeKey, hasKey, hxy, ih]
    · simp [removeKey, hasKey, hk, ih]

/-- Membership survives removal of a different identifier. -/
theorem hasKey_of_hasKey_removeKey (l : List (OrderId × Order)) (x y : OrderId)
    (h : hasKey (removeKey l x) y = true) : hasKey l y = true := by
  by_cases hxy : y = x
  · rw [hxy, hasKey_removeKey_self] at h
    cases h
  · rwa [hasKey_removeKey_ne l x y hxy] at h

/-- The registry invariant: active and completed orders are both registered
in the order book, and no order is simultaneously active and completed. -/
def RegInv (s : ExecState) : Prop :=
  (∀ oid, hasKey s.orders_active oid = true → hasKey s.order_book oid = true) ∧
  (∀ oid, hasKey s.orders_completed oid = true → hasKey s.order_book oid = true) ∧
  (∀ oid, ¬(hasKey s.orders_active oid = true ∧
    hasKey s.orders_completed oid = true))

/-- The fresh client satisfies the registry invariant. -/
theorem regInv_init : RegInv ExecState.init := by
  refine ⟨?_, ?_, ?_⟩ <;> intro oid <;> simp [ExecState.init, hasKey]

/-- Order registration preserves the registry invariant. -/
theorem regInv_register (s : ExecState) (o : Order) (h : RegInv s) :
    RegInv (ExecutionClient.register_order s o) := by
  obtain ⟨ha, hc, hd⟩ := h
  unfold ExecutionClient.register_order
  by_cases hb : hasKey s.order_book o.id = true
  · rw [if_pos hb]
    exact ⟨ha, hc, hd⟩
  · rw [if_neg hb]
    refine ⟨?_, ?_, ?_⟩
    · intro oid hact
      rw [hasKey_cons] at hact ⊢
      rcases Bool.or_eq_true_iff.mp hact with h1 | h1
      · rw [h1]
        rfl
      · rw [ha oid h1, Bool.or_true]
    · intro oid hcomp
      rw [hasKey_cons]
      rw [hc oid hcomp, Bool.or_true]
    · intro oid hboth
      obtain ⟨h1, h2⟩ := hboth
      rw [hasKey_cons] at h1
      rcases Bool.or_eq_true_iff.mp h1 with h3 | h3
      · have hxo : o.id = oid := of_decide_eq_true h3
        rw [← hxo] at h2
        exact hb (hc o.id h2)
      · exact hd oid ⟨h3, h2⟩

/-- Registration never touches the completed registry. -/
theorem register_completed_eq (s : ExecState) (o : Order) :
    (ExecutionClient.register_order s o).orders_completed =
      s.orders_completed := by
  unfold ExecutionClient.register_order
  split <;> rfl

/-- Command execution preserves the registry invariant. -/
theorem regInv_execute (s : ExecState) (c : Command) (h : RegInv s) :
    RegInv (ExecutionClient.execute_command s c) := by
  cases c with
  | collateralInquiry id ts => exact h
  | submitOrder tid sid pid o id ts => exact regInv_register s o h
  | submitAtomicOrder tid sid pid ao id ts =>
    have h1 := regInv_register s ao.entry h
    cases hsl : ao.stop_loss with
    | none =>
      cases htp : ao.take_profit with
      | none => simpa [ExecutionClient.execute_command, hsl, htp] using h1
      | some otp =>
        simpa [ExecutionClient.execute_command, hsl, htp] using
          regInv_register _ otp h1
    | some osl =>
      have h2 := regInv_register _ osl h1
      cases htp : ao.take_profit with
      | none => simpa [ExecutionClient.execute_command, hsl, htp] using h2
      | some otp =>
        simpa [ExecutionClient.execute_command, hsl, htp] using
          regInv_register _ otp h2
  | modifyOrder tid sid oid mp id ts => exact h
  | cancelOrder tid sid oid cr id ts => exact h

/-- `handle_event` on an account event only bumps the event count. -/
theorem handle_event_account (s : ExecState) (e : Event)
    (hoid : Event.order_event_id e = none) :
    ExecutionClient.handle_event s e = { s with event_count := s.event_count + 1 } := by
  simp [ExecutionClient.handle_event, hoid]

/-- `handle_event` on an event for an unknown order drops the event. -/
theorem handle_event_unknown (s : ExecState) (e : Event) (oid : OrderId)
    (hoid : Event.order_event_id e = some oid)
    (hb : hasKey s.order_book oid = false) :
    ExecutionClient.handle_event s e = s := by
  simp [ExecutionClient.handle_event, hoid, hb]

/-- `handle_event` on a non-terminal event for a known order only bumps the
event count. -/
theorem handle_event_nonterminal (s : ExecState) (e : Event) (oid : OrderId)
    (hoid : Event.order_event_id e = some oid)
    (hb : hasKey s.order_book oid = true)
    (hterm : Event.is_terminal e = false) :
    ExecutionClient.handle_event s e = { s with event_count := s.event_count + 1 } := by
  simp [ExecutionClient.handle_event, hoid, hb, hterm]

/-- `handle_event` on a duplicate terminal event (order known but no longer
active) only bumps the event count. -/
theorem handle_event_terminal_inactive (s : ExecState) (e : Event) (oid : OrderId)
    (hoid : Event.order_event_id e = some oid)
    (hb : hasKey s.order_book oid = true)
    (hterm : Event.is_terminal e = true)
    (hact : lookupKey s.orders_active oid = none) :
    ExecutionClient.handle_event s e = { s with event_count := s.event_count + 1 } := by
  simp [ExecutionClient.handle_event, hoid, hb, hterm, hact]

/-- `handle_event` on a terminal event for an active order moves the order
from the active to the completed registry. -/
theorem handle_event_terminal_active (s : ExecState) (e : Event) (oid : OrderId)
    (ord : Order) (hoid : Event.order_event_id e = some oid)
    (hb : hasKey s.order_book oid = true)
    (hterm : Event.is_terminal e = true)
    (hact : lookupKey s.orders_active oid = some ord) :
    ExecutionClient.handle_event s e =
      { s with
        event_count := s.event_count + 1,
        orders_active := removeKey s.orders_active oid,
        orders_completed := (oid, ord) :: s.orders_completed } := by
  simp [ExecutionClient.handle_event, hoid, hb, hterm, hact]

/-- Event handling preserves the registry invariant. -/
theorem regInv_handle (s : ExecState) (e : Event) (h : RegInv s) :
    RegInv (ExecutionClient.handle_event s e) := by
  obtain ⟨ha, hc, hd⟩ := h
  cases hoid : Event.order_event_id e with
  | none =>
    rw [handle_event_account s e hoid]
    exact ⟨ha, hc, hd⟩
  | some oid =>
    cases hb : hasKey s.order_book oid with
    | false =>
      rw [handle_event_unknown s e oid hoid hb]
      exact ⟨ha, hc, hd⟩
    | true =>
      cases hterm : Event.is_terminal e with
      | false =>
        rw [handle_event_nonterminal s e oid hoid hb hterm]
        exact ⟨ha, hc, hd⟩
      | true =>
        cases hact : lookupKey s.orders_active oid with
        | none =>
          rw [handle_event_terminal_inactive s e oid hoid hb hterm hact]
          exact ⟨ha, hc, hd⟩
        | some ord =>
          rw [handle_event_terminal_active s e oid ord hoid hb hterm hact]
          refine ⟨?_, ?_, ?_⟩
          · intro x hx
            exact ha x (hasKey_of_hasKey_removeKey _ _ _ hx)
          · intro x hx
            rw [hasKey_cons] at hx
            rcases Bool.or_eq_true_iff.mp hx with h1 | h1
            · have hxo : oid = x := of_decide_eq_true h1
              rwa [← hxo]
            · exact hc x h1
          · intro x hboth
            obtain ⟨h1, h2⟩ := hboth
            by_cases hxo : x = oid
            · rw [hxo, hasKey_removeKey_self] at h1
              cases h1
            · rw [hasKey_removeKey_ne _ _ _ hxo] at h1
              rw [hasKey_cons] at h2
              rcases Bool.or_eq_true_iff.mp h2 with h3 | h3
              · exact hxo (of_decide_eq_true h3).symm
              · exact hd x ⟨h1, h3⟩

/-- One inbound message preserves the registry invariant. -/
theorem regInv_apply_msg (s : ExecState) (m : ExecMsg) (h : RegInv s) :
    RegInv (ExecutionClient.apply_msg s m) := by
  cases m with
  | cmd c => exact regInv_execute s c h
  | ev e => exact regInv_handle s e h

/-- Any message sequence preserves the registry invariant. -/
theorem regInv_foldl (msgs : List ExecMsg) (s : ExecState) (h : RegInv s) :
    RegInv (List.foldl ExecutionClient.apply_msg s msgs) := by
  induction msgs generalizing s with
  | nil => exact h
  | cons m rest ih => exact ih _ (regInv_apply_msg s m h)

/-- One inbound message never evicts a completed order. -/
theorem completed_mono_apply_msg (s : ExecState) (m : ExecMsg) (oid : OrderId)
    (h : hasKey s.orders_completed oid = true) :
    hasKey (ExecutionClient.apply_msg s m).orders_completed oid = true := by
  cases m with
  | cmd c =>
    cases c with
    | collateralInquiry id ts => exact h
    | submitOrder tid sid pid o id ts =>
      simpa [ExecutionClient.apply_msg, ExecutionClient.execute_command,
        register_completed_eq] using h
    | submitAtomicOrder tid sid pid ao id ts =>
      simp only [ExecutionClient.apply_msg, ExecutionClient.execute_command]
      cases ao.stop_loss <;> cases ao.take_profit <;>
        simpa [register_completed_eq] using h
    | modifyOrder tid sid oid2 mp id ts => exact h
    | cancelOrder tid sid oid2 cr id ts => exact h
  | ev e =>
    show hasKey (ExecutionClient.handle_event s e).orders_completed oid = true
    cases hoid : Event.order_event_id e with
    | none =>
      rw [handle_event_account s e hoid]
      exact h
    | some oid2 =>
      cases hb : hasKey s.order_book oid2 with
      | false =>
        rw [handle_event_unknown s e oid2 hoid hb]
        exact h
      | true =>
        cases hterm : Event.is_terminal e with
        | false =>
          rw [handle_event_nonterminal s e oid2 hoid hb hterm]
          exact h
        | true =>
          cases hact : lookupKey s.orders_active oid2 with
          | none =>
            rw [handle_event_terminal_inactive s e oid2 hoid hb hterm hact]
            exact h
          | some ord =>
            rw [handle_event_terminal_active s e oid2 ord hoid hb hterm hact]
            rw [hasKey_cons, h, Bool.or_true]

/-- A message sequence never evicts a completed order. -/
theorem completed_mono_foldl (msgs : List ExecMsg) (s : ExecState)
    (oid : OrderId) (h : hasKey s.orders_completed oid = true) :
    hasKey (List.foldl ExecutionClient.apply_msg s msgs).orders_completed oid =
      true := by
  induction msgs generalizing s with
  | nil => exact h
  | cons m rest ih => exact ih _ (completed_mono_apply_msg s m oid h)

/-- Claim C9: for every sequence of commands and events applied to a fresh
execution client, at every point each order identifier is present in at most
one of the active and completed registries; and once present in completed it
stays in completed and is never again present in active, whatever messages
follow. -/
theorem registry_invariant :
    (∀ (msgs : List ExecMsg) (oid : OrderId),
      ¬(hasKey (ExecutionClient.run msgs).orders_active oid = true ∧
        hasKey (ExecutionClient.run msgs).orders_completed oid = true)) ∧
    (∀ (msgs rest : List ExecMsg) (oid : OrderId),
      hasKey (ExecutionClient.run msgs).orders_completed oid = true →
      hasKey (ExecutionClient.run (msgs ++ rest)).orders_completed oid = true ∧
      hasKey (ExecutionClient.run (msgs ++ rest)).orders_active oid = false) := by
  constructor
  · intro msgs oid
    exact (regInv_foldl msgs ExecState.init regInv_init).2.2 oid
  · intro msgs rest oid h
    have hrun : ExecutionClient.run (msgs ++ rest) =
        List.foldl ExecutionClient.apply_msg (ExecutionClient.run msgs) rest := by
      simp [ExecutionClient.run, List.foldl_append]
    have hcomp : hasKey (ExecutionClient.run (msgs ++ rest)).orders_completed oid =
        true := by
      rw [hrun]
      exact completed_mono_foldl rest (ExecutionClient.run msgs) oid h
    refine ⟨hcomp, ?_⟩
    have hinv : RegInv (ExecutionClient.run (msgs ++ rest)) :=
      regInv_foldl (msgs ++ rest) ExecState.init regInv_init
    cases hact : hasKey (ExecutionClient.run (msgs ++ rest)).orders_active oid with
    | false => rfl
    | true => exact absurd ⟨hact, hcomp⟩ (hinv.2.2 oid)

/-- A concrete market order for the registry witness. -/
def exampleRegOrder : Order :=
  ⟨⟨"O-19700101-000000-001-001-9"⟩, ⟨"AUDUSD.FXCM"⟩, .BUY, .MARKET, ⟨1000⟩,
    none, none, .DAY, none, some ⟨"2019-03-05T15:10:00.000Z"⟩,
    ⟨"9a8b7c6d-5e4f-4a3b-8c2d-1e0f9a8b7c6d"⟩⟩

/-- Submit `exampleRegOrder`, then fill it. -/
def exampleTrace : List ExecMsg :=
  [.cmd (.submitOrder ⟨"TESTER-000"⟩ ⟨"S1-1"⟩ ⟨"P-123458"⟩ exampleRegOrder
      ⟨"2b3c4d5e-6f70-4a81-92a3-b4c5d6e7f809"⟩
      (some ⟨"2019-03-05T15:10:01.000Z"⟩)),
    .ev (.orderFilled ⟨"O-19700101-000000-001-001-9"⟩ ⟨"E-1"⟩ ⟨"ET-1"⟩
      ⟨"AUDUSD.FXCM"⟩ .BUY ⟨1000⟩ ⟨"0.80000"⟩
      (some ⟨"2019-03-05T15:10:02.000Z"⟩)
      ⟨"3c4d5e6f-7081-4a92-83b4-c5d6e7f8091a"⟩
      (some ⟨"2019-03-05T15:10:02.000Z"⟩))]

/-- Try to resubmit the same order identifier after completion. -/
def exampleTraceRest : List ExecMsg :=
  [.cmd (.submitOrder ⟨"TESTER-000"⟩ ⟨"S1-1"⟩ ⟨"P-123459"⟩ exampleRegOrder
      ⟨"4d5e6f70-8192-4aa3-94c5-d6e7f8091a2b"⟩
      (some ⟨"2019-03-05T15:10:03.000Z"⟩))]

/-- Witness for `registry_invariant` on a concrete trace: the filled order is
completed, and stays out of the active registry even when the same identifier
is submitted again. -/
theorem registry_invariant_witness :
    hasKey (ExecutionClient.run exampleTrace).orders_completed
      ⟨"O-19700101-000000-001-001-9"⟩ = true ∧
    hasKey (ExecutionClient.run (exampleTrace ++ exampleTraceRest)).orders_active
      ⟨"O-19700101-000000-001-001-9"⟩ = false :=
  ⟨by decide,
    (registry_invariant.2 exampleTrace exampleTraceRest
      ⟨"O-19700101-000000-001-001-9"⟩ (by decide)).2⟩
